import Mathlib

/-!
Shallow embedding of the adaptive learning backend in src/backend/server.py
(Pathshala Coach).  Pydantic models become structures, the Mongo collections
become lists inside a `DB` state record, Python dicts become association
lists with insertion-order semantics (`dictGet?` / `dictSet`), floats are
modelled as exact rationals, and each HTTP endpoint becomes a state-passing
function.  Sources of nondeterminism of the code (`random.sample`,
`random.choice`, `random.shuffle`, `uuid.uuid4()`, wall-clock time, and the
OpenAI content generator) are passed in as explicit parameters, constrained
in theorems exactly as the Python library guarantees them (a sample is a
subset of the requested size, a choice is a member, a shuffle is a
permutation).
-/

namespace Pathshala

/-- An entry of the `SAMPLE_QUESTIONS` / `MOCK_ADAPTIVE_QUESTIONS` list
literals of server.py: a plain dict with these ten keys (no `id`). -/
structure SampleQ where
  subject : String
  difficulty : String
  question_text_en : String
  question_text_hi : String
  options_en : List String
  options_hi : List String
  correct_answer : Int
  explanation_en : String
  explanation_hi : String
  exam_type : String
  deriving DecidableEq, Repr, Inhabited

/-- An entry of the (second, surviving) `MOCK_STUDY_PLANS` list literal. -/
structure MockPlan where
  subjects : List String
  description : String
  difficulty : String
  deriving DecidableEq, Repr, Inhabited

/-- The `Question` pydantic model (server.py lines 63-74).  `subject` and
`difficulty` are enum-valued strings in the stored document; validity of the
string is checked where the code constructs a `Question` from untrusted
data. -/
structure Question where
  id : String
  subject : String
  difficulty : String
  question_text_en : String
  question_text_hi : String
  options_en : List String
  options_hi : List String
  correct_answer : Int
  explanation_en : String
  explanation_hi : String
  exam_type : String
  deriving DecidableEq, Repr, Inhabited

/-- The `Answer` pydantic model (lines 76-80). -/
structure Answer where
  question_id : String
  selected_option : Int
  is_correct : Bool
  time_taken : Int
  deriving DecidableEq, Repr, Inhabited

/-- The `Assessment` pydantic model (lines 82-91).  Scores are python floats,
modelled as exact rationals; timestamps are abstract `Nat` instants. -/
structure Assessment where
  id : String
  user_id : String
  test_type : String
  questions : List String
  answers : List Answer
  score : ℚ
  subject_scores : List (String × ℚ)
  completed_at : Option Nat
  created_at : Nat
  deriving DecidableEq, Repr, Inhabited

/-- The `User` pydantic model (lines 54-61): `skill_levels` is a python dict
subject-string to difficulty-string, kept as an insertion-ordered
association list. -/
structure User where
  id : String
  name : String
  phone : String
  target_exam : String
  preferred_language : String
  skill_levels : List (String × String)
  created_at : Nat
  deriving DecidableEq, Repr, Inhabited

/-- The `StudyPlan` pydantic model (lines 93-101). -/
structure StudyPlan where
  id : String
  user_id : String
  date : String
  subjects : List String
  questions_count : Nat
  estimated_time : Nat
  status : String
  created_at : Nat
  deriving DecidableEq, Repr, Inhabited

/-- The four Mongo collections the endpoints touch, each a list of documents
in insertion order (`find_one` scans in order, `insert_one` appends). -/
structure DB where
  users : List User
  questions : List Question
  assessments : List Assessment
  study_plans : List StudyPlan
  deriving DecidableEq, Repr, Inhabited

/-- Python `d[k]` / `d.get(k)` on an insertion-ordered dict. -/
def dictGet? {α : Type} (d : List (String × α)) (k : String) : Option α :=
  (d.find? (fun p => p.1 == k)).map (fun p => p.2)

/-- Python `d[k] = v` on an insertion-ordered dict: overwrite in place if the
key exists, append otherwise. -/
def dictSet {α : Type} (d : List (String × α)) (k : String) (v : α) :
    List (String × α) :=
  match d with
  | [] => [(k, v)]
  | p :: rest => if p.1 == k then (k, v) :: rest else p :: dictSet rest k v

/-- Mongo `update_one`: rewrite the first document matching the filter,
leave everything else in place. -/
def updateFirst {α : Type} (p : α → Bool) (f : α → α) : List α → List α
  | [] => []
  | x :: xs => if p x then f x :: xs else x :: updateFirst p f xs

/-- The `SAMPLE_QUESTIONS` list literal of server.py, extracted field by field. -/
def SAMPLE_QUESTIONS : List SampleQ := [
  { subject := "quantitative", difficulty := "beginner",
    question_text_en := "What is 25% of 800?",
    question_text_hi := "800 का 25% क्या है?",
    options_en := ["150", "200", "250", "300"],
    options_hi := ["150", "200", "250", "300"],
    correct_answer := 1,
    explanation_en := "25% of 800 = (25/100) × 800 = 200",
    explanation_hi := "800 का 25% = (25/100) × 800 = 200",
    exam_type := "SSC" },
  { subject := "quantitative", difficulty := "beginner",
    question_text_en := "If a man buys 12 apples for Rs. 60, what is the cost of one apple?",
    question_text_hi := "यदि एक व्यक्ति 60 रुपये में 12 सेब खरीदता है, तो एक सेब की कीमत क्या है?",
    options_en := ["Rs. 4", "Rs. 5", "Rs. 6", "Rs. 7"],
    options_hi := ["₹4", "₹5", "₹6", "₹7"],
    correct_answer := 1,
    explanation_en := "Cost of one apple = Total cost / Number of apples = 60/12 = Rs. 5",
    explanation_hi := "एक सेब की कीमत = कुल कीमत / सेब की संख्या = 60/12 = ₹5",
    exam_type := "SSC" },
  { subject := "quantitative", difficulty := "intermediate",
    question_text_en := "A train travels 180 km in 3 hours. What is its speed in km/hr?",
    question_text_hi := "एक ट्रेन 3 घंटे में 180 किमी की यात्रा करती है। इसकी गति किमी/घंटा में क्या है?",
    options_en := ["50 km/hr", "60 km/hr", "70 km/hr", "80 km/hr"],
    options_hi := ["50 किमी/घंटा", "60 किमी/घंटा", "70 किमी/घंटा", "80 किमी/घंटा"],
    correct_answer := 1,
    explanation_en := "Speed = Distance / Time = 180 km / 3 hours = 60 km/hr",
    explanation_hi := "गति = दूरी / समय = 180 किमी / 3 घंटे = 60 किमी/घंटा",
    exam_type := "SSC" },
  { subject := "reasoning", difficulty := "beginner",
    question_text_en := "If CODING is written as DPEJOH, how is FILING written?",
    question_text_hi := "यदि CODING को DPEJOH लिखा जाता है, तो FILING कैसे लिखा जाएगा?",
    options_en := ["GJMJOH", "GJMJPI", "GJLJOH", "GJMJNG"],
    options_hi := ["GJMJOH", "GJMJPI", "GJLJOH", "GJMJNG"],
    correct_answer := 0,
    explanation_en := "Each letter is shifted by +1 in the alphabet. F→G, I→J, L→M, I→J, N→O, G→H",
    explanation_hi := "प्रत्येक अक्षर को वर्णमाला में +1 से बदला जाता है। F→G, I→J, L→M, I→J, N→O, G→H",
    exam_type := "SSC" },
  { subject := "reasoning", difficulty := "beginner",
    question_text_en := "Complete the series: 2, 4, 8, 16, ?",
    question_text_hi := "श्रृंखला पूरी करें: 2, 4, 8, 16, ?",
    options_en := ["24", "28", "32", "36"],
    options_hi := ["24", "28", "32", "36"],
    correct_answer := 2,
    explanation_en := "Each number is double the previous number. 16 × 2 = 32",
    explanation_hi := "प्रत्येक संख्या पिछली संख्या की दोगुनी है। 16 × 2 = 32",
    exam_type := "Banking" },
  { subject := "reasoning", difficulty := "intermediate",
    question_text_en := "In a certain code, CAT is written as FDW. How is DOG written?",
    question_text_hi := "एक निश्चित कूट में, CAT को FDW लिखा जाता है। DOG कैसे लिखा जाएगा?",
    options_en := ["GRJ", "ERK", "FQI", "HRL"],
    options_hi := ["GRJ", "ERK", "FQI", "HRL"],
    correct_answer := 0,
    explanation_en := "Each letter is shifted by +3 positions: D→G, O→R, G→J",
    explanation_hi := "प्रत्येक अक्षर को +3 स्थान आगे बढ़ाया गया है: D→G, O→R, G→J",
    exam_type := "SSC" },
  { subject := "english", difficulty := "beginner",
    question_text_en := "Choose the correct synonym for 'ABUNDANT':",
    question_text_hi := "'ABUNDANT' का सही समानार्थी शब्द चुनें:",
    options_en := ["Scarce", "Plentiful", "Limited", "Rare"],
    options_hi := ["दुर्लभ", "प्रचुर", "सीमित", "कम"],
    correct_answer := 1,
    explanation_en := "Abundant means existing in large quantities; plentiful.",
    explanation_hi := "Abundant का अर्थ है बड़ी मात्रा में मौजूद; प्रचुर।",
    exam_type := "Banking" },
  { subject := "english", difficulty := "beginner",
    question_text_en := "Choose the correct antonym for 'HAPPY':",
    question_text_hi := "'HAPPY' का सही विपरीतार्थी शब्द चुनें:",
    options_en := ["Joyful", "Sad", "Cheerful", "Pleased"],
    options_hi := ["खुशी", "दुखी", "प्रसन्न", "संतुष्ट"],
    correct_answer := 1,
    explanation_en := "The antonym of happy is sad.",
    explanation_hi := "Happy का विपरीतार्थी शब्द sad है।",
    exam_type := "SSC" },
  { subject := "english", difficulty := "intermediate",
    question_text_en := "Fill in the blank: The meeting was _____ due to rain.",
    question_text_hi := "रिक्त स्थान भरें: बारिश के कारण बैठक _____ थी।",
    options_en := ["called off", "called on", "called up", "called for"],
    options_hi := ["रद्द कर दी गई", "बुलाई गई", "फोन किया गया", "मांग की गई"],
    correct_answer := 0,
    explanation_en := "'Called off' means cancelled or postponed.",
    explanation_hi := "'Called off' का अर्थ है रद्द या स्थगित करना।",
    exam_type := "Banking" },
  { subject := "general_knowledge", difficulty := "beginner",
    question_text_en := "Who is the current President of India (as of 2024)?",
    question_text_hi := "भारत के वर्तमान राष्ट्रपति कौन हैं (2024 तक)?",
    options_en := ["Ram Nath Kovind", "Droupadi Murmu", "Pranab Mukherjee", "A.P.J. Abdul Kalam"],
    options_hi := ["राम नाथ कोविंद", "द्रौपदी मुर्मू", "प्रणब मुखर्जी", "ए.पी.जे. अब्दुल कलाम"],
    correct_answer := 1,
    explanation_en := "Droupadi Murmu is the current President of India, serving since July 2022.",
    explanation_hi := "द्रौपदी मुर्मू भारत की वर्तमान राष्ट्रपति हैं, जो जुलाई 2022 से सेवा कर रही हैं।",
    exam_type := "State PSC" },
  { subject := "general_knowledge", difficulty := "beginner",
    question_text_en := "What is the capital of India?",
    question_text_hi := "भारत की राजधानी क्या है?",
    options_en := ["Mumbai", "New Delhi", "Kolkata", "Chennai"],
    options_hi := ["मुंबई", "नई दिल्ली", "कोलकाता", "चेन्नई"],
    correct_answer := 1,
    explanation_en := "New Delhi is the capital of India.",
    explanation_hi := "नई दिल्ली भारत की राजधानी है।",
    exam_type := "SSC" },
  { subject := "general_knowledge", difficulty := "intermediate",
    question_text_en := "Which river is known as the 'Ganga of South India'?",
    question_text_hi := "कौन सी नदी को 'दक्षिण भारत की गंगा' कहा जाता है?",
    options_en := ["Krishna", "Godavari", "Cauvery", "Tungabhadra"],
    options_hi := ["कृष्णा", "गोदावरी", "कावेरी", "तुंगभद्रा"],
    correct_answer := 1,
    explanation_en := "Godavari is known as the 'Ganga of South India' due to its length and cultural significance.",
    explanation_hi := "गोदावरी को इसकी लंबाई और सांस्कृतिक महत्व के कारण 'दक्षिण भारत की गंगा' कहा जाता है।",
    exam_type := "State PSC" }
]

/-- The `MOCK_ADAPTIVE_QUESTIONS` list literal of server.py, extracted field by field. -/
def MOCK_ADAPTIVE_QUESTIONS : List SampleQ := [
  { subject := "quantitative", difficulty := "intermediate",
    question_text_en := "What is 15% of 240?",
    question_text_hi := "240 का 15% क्या है?",
    options_en := ["30", "36", "40", "45"],
    options_hi := ["30", "36", "40", "45"],
    correct_answer := 1,
    explanation_en := "15% of 240 = (15/100) × 240 = 36",
    explanation_hi := "240 का 15% = (15/100) × 240 = 36",
    exam_type := "SSC" },
  { subject := "reasoning", difficulty := "intermediate",
    question_text_en := "Find the next number in series: 2, 6, 12, 20, ?",
    question_text_hi := "श्रृंखला में अगली संख्या ज्ञात करें: 2, 6, 12, 20, ?",
    options_en := ["28", "30", "32", "34"],
    options_hi := ["28", "30", "32", "34"],
    correct_answer := 1,
    explanation_en := "Pattern: n(n+1), so 5×6 = 30",
    explanation_hi := "पैटर्न: n(n+1), इसलिए 5×6 = 30",
    exam_type := "SSC" },
  { subject := "english", difficulty := "intermediate",
    question_text_en := "Choose the correct synonym for 'Abundant':",
    question_text_hi := "'Abundant' के लिए सही समानार्थी शब्द चुनें:",
    options_en := ["Scarce", "Plentiful", "Rare", "Limited"],
    options_hi := ["कम", "प्रचुर", "दुर्लभ", "सीमित"],
    correct_answer := 1,
    explanation_en := "Abundant means existing in large quantities; plentiful",
    explanation_hi := "Abundant का अर्थ है बड़ी मात्रा में मौजूद; प्रचुर",
    exam_type := "SSC" },
  { subject := "general_knowledge", difficulty := "intermediate",
    question_text_en := "Who is known as the 'Father of the Indian Constitution'?",
    question_text_hi := "किसे 'भारतीय संविधान के पिता' के रूप में जाना जाता है?",
    options_en := ["Mahatma Gandhi", "Jawaharlal Nehru", "Dr. B.R. Ambedkar", "Sardar Patel"],
    options_hi := ["महात्मा गांधी", "जवाहरलाल नेहरू", "डॉ. बी.आर. अंबेडकर", "सरदार पटेल"],
    correct_answer := 2,
    explanation_en := "Dr. B.R. Ambedkar was the chairman of the Drafting Committee",
    explanation_hi := "डॉ. बी.आर. अंबेडकर मसौदा समिति के अध्यक्ष थे",
    exam_type := "SSC" },
  { subject := "quantitative", difficulty := "advanced",
    question_text_en := "If a train 150m long passes a platform 300m long in 18 seconds, find its speed in km/h.",
    question_text_hi := "यदि 150m लंबी ट्रेन 300m लंबे प्लेटफॉर्म को 18 सेकंड में पार करती है, तो उसकी गति km/h में ज्ञात करें।",
    options_en := ["60", "75", "90", "100"],
    options_hi := ["60", "75", "90", "100"],
    correct_answer := 2,
    explanation_en := "Total distance = 150+300 = 450m, Speed = 450/18 = 25 m/s = 90 km/h",
    explanation_hi := "कुल दूरी = 150+300 = 450m, गति = 450/18 = 25 m/s = 90 km/h",
    exam_type := "SSC" },
  { subject := "quantitative", difficulty := "intermediate",
    question_text_en := "A sum of money doubles itself in 5 years at simple interest. In how many years will it become 4 times?",
    question_text_hi := "एक राशि साधारण ब्याज पर 5 वर्ष में दोगुनी हो जाती है। कितने वर्षों में यह 4 गुनी हो जाएगी?",
    options_en := ["10 years", "15 years", "20 years", "25 years"],
    options_hi := ["10 वर्ष", "15 वर्ष", "20 वर्ष", "25 वर्ष"],
    correct_answer := 1,
    explanation_en := "If money doubles in 5 years, rate = 20%. To become 4 times, it needs 15 years",
    explanation_hi := "यदि पैसा 5 वर्ष में दोगुना होता है, तो दर = 20%। 4 गुना होने के लिए 15 वर्ष चाहिए",
    exam_type := "Banking" },
  { subject := "reasoning", difficulty := "intermediate",
    question_text_en := "In a certain code, 'COMPUTER' is written as 'RFUVQNPC'. How is 'MEDICINE' written in that code?",
    question_text_hi := "एक निश्चित कोड में 'COMPUTER' को 'RFUVQNPC' लिखा जाता है। उस कोड में 'MEDICINE' कैसे लिखा जाएगा?",
    options_en := ["MFEDJJOE", "EOJDEJFM", "MJDJEOFE", "EOJDJEFM"],
    options_hi := ["MFEDJJOE", "EOJDEJFM", "MJDJEOFE", "EOJDJEFM"],
    correct_answer := 1,
    explanation_en := "Each letter is replaced by the letter at the same position from the end of alphabet",
    explanation_hi := "प्रत्येक अक्षर को वर्णमाला के अंत से समान स्थिति के अक्षर से बदला जाता है",
    exam_type := "Banking" },
  { subject := "english", difficulty := "intermediate",
    question_text_en := "Choose the correctly spelled word:",
    question_text_hi := "सही वर्तनी वाला शब्द चुनें:",
    options_en := ["Accommodation", "Acommodation", "Accomodation", "Acomodation"],
    options_hi := ["Accommodation", "Acommodation", "Accomodation", "Acomodation"],
    correct_answer := 0,
    explanation_en := "Accommodation has double 'c' and double 'm'",
    explanation_hi := "Accommodation में दो 'c' और दो 'm' हैं",
    exam_type := "Banking" },
  { subject := "general_knowledge", difficulty := "intermediate",
    question_text_en := "Which bank is known as the 'Banker's Bank' in India?",
    question_text_hi := "भारत में किस बैंक को 'बैंकरों का बैंक' कहा जाता है?",
    options_en := ["SBI", "RBI", "HDFC", "ICICI"],
    options_hi := ["SBI", "RBI", "HDFC", "ICICI"],
    correct_answer := 1,
    explanation_en := "RBI (Reserve Bank of India) is the central bank and banker's bank",
    explanation_hi := "RBI (भारतीय रिजर्व बैंक) केंद्रीय बैंक और बैंकरों का बैंक है",
    exam_type := "Banking" },
  { subject := "quantitative", difficulty := "advanced",
    question_text_en := "A man invests Rs. 10,000 at 10% compound interest for 2 years. What is the compound interest?",
    question_text_hi := "एक व्यक्ति 2 वर्ष के लिए 10% चक्रवृद्धि ब्याज पर 10,000 रुपये निवेश करता है। चक्रवृद्धि ब्याज क्या है?",
    options_en := ["Rs. 2,100", "Rs. 2,200", "Rs. 2,300", "Rs. 2,400"],
    options_hi := ["2,100 रुपये", "2,200 रुपये", "2,300 रुपये", "2,400 रुपये"],
    correct_answer := 0,
    explanation_en := "CI = P[(1+r/100)^n - 1] = 10000[(1.1)^2 - 1] = 10000[1.21 - 1] = 2100",
    explanation_hi := "चक्रवृद्धि ब्याज = P[(1+r/100)^n - 1] = 10000[(1.1)^2 - 1] = 2100",
    exam_type := "Banking" },
  { subject := "quantitative", difficulty := "intermediate",
    question_text_en := "The average of 5 numbers is 20. If one number is excluded, the average becomes 18. What is the excluded number?",
    question_text_hi := "5 संख्याओं का औसत 20 है। यदि एक संख्या को हटा दिया जाए, तो औसत 18 हो जाता है। हटाई गई संख्या क्या है?",
    options_en := ["26", "28", "30", "32"],
    options_hi := ["26", "28", "30", "32"],
    correct_answer := 1,
    explanation_en := "Sum of 5 numbers = 100, Sum of 4 numbers = 72, Excluded number = 100-72 = 28",
    explanation_hi := "5 संख्याओं का योग = 100, 4 संख्याओं का योग = 72, हटाई गई संख्या = 28",
    exam_type := "State PSC" },
  { subject := "reasoning", difficulty := "intermediate",
    question_text_en := "If 'PEN' is coded as 'QFO', then 'INK' will be coded as:",
    question_text_hi := "यदि 'PEN' को 'QFO' के रूप में कोड किया जाता है, तो 'INK' को कैसे कोड किया जाएगा:",
    options_en := ["JOL", "JOM", "JON", "JOP"],
    options_hi := ["JOL", "JOM", "JON", "JOP"],
    correct_answer := 0,
    explanation_en := "Each letter is moved one position forward in the alphabet",
    explanation_hi := "प्रत्येक अक्षर वर्णमाला में एक स्थान आगे बढ़ाया जाता है",
    exam_type := "State PSC" },
  { subject := "english", difficulty := "intermediate",
    question_text_en := "Choose the correct antonym for 'Benevolent':",
    question_text_hi := "'Benevolent' के लिए सही विलोम शब्द चुनें:",
    options_en := ["Kind", "Generous", "Malevolent", "Charitable"],
    options_hi := ["दयालु", "उदार", "दुर्भावनापूर्ण", "दानशील"],
    correct_answer := 2,
    explanation_en := "Benevolent means kind and generous, so malevolent (evil) is its antonym",
    explanation_hi := "Benevolent का अर्थ दयालु और उदार है, इसलिए malevolent (दुर्भावनापूर्ण) इसका विलोम है",
    exam_type := "State PSC" },
  { subject := "general_knowledge", difficulty := "intermediate",
    question_text_en := "Which state is known as the 'Land of Five Rivers'?",
    question_text_hi := "किस राज्य को 'पांच नदियों की भूमि' कहा जाता है?",
    options_en := ["Punjab", "Haryana", "Uttar Pradesh", "Rajasthan"],
    options_hi := ["पंजाब", "हरियाणा", "उत्तर प्रदेश", "राजस्थान"],
    correct_answer := 0,
    explanation_en := "Punjab means 'five waters' - the land of five rivers",
    explanation_hi := "पंजाब का अर्थ 'पांच पानी' है - पांच नदियों की भूमि",
    exam_type := "State PSC" },
  { subject := "quantitative", difficulty := "advanced",
    question_text_en := "A rectangular field is 40m long and 30m wide. A path 2m wide runs around it. Find the area of the path.",
    question_text_hi := "एक आयताकार मैदान 40m लंबा और 30m चौड़ा है। इसके चारों ओर 2m चौड़ा रास्ता है। रास्ते का क्षेत्रफल ज्ञात करें।",
    options_en := ["296 sq m", "300 sq m", "304 sq m", "308 sq m"],
    options_hi := ["296 वर्ग मी", "300 वर्ग मी", "304 वर्ग मी", "308 वर्ग मी"],
    correct_answer := 0,
    explanation_en := "Outer area = 44×34 = 1496, Inner area = 40×30 = 1200, Path area = 1496-1200 = 296",
    explanation_hi := "बाहरी क्षेत्र = 44×34 = 1496, आंतरिक क्षेत्र = 40×30 = 1200, रास्ते का क्षेत्र = 296",
    exam_type := "State PSC" },
  { subject := "quantitative", difficulty := "intermediate",
    question_text_en := "A train covers 120 km in 2 hours. What is its speed in m/s?",
    question_text_hi := "एक ट्रेन 2 घंटे में 120 किमी की दूरी तय करती है। m/s में इसकी गति क्या है?",
    options_en := ["16.67 m/s", "20 m/s", "25 m/s", "30 m/s"],
    options_hi := ["16.67 m/s", "20 m/s", "25 m/s", "30 m/s"],
    correct_answer := 0,
    explanation_en := "Speed = 120/2 = 60 km/h = 60×1000/3600 = 16.67 m/s",
    explanation_hi := "गति = 120/2 = 60 km/h = 60×1000/3600 = 16.67 m/s",
    exam_type := "Railway" },
  { subject := "reasoning", difficulty := "intermediate",
    question_text_en := "If 'TRAIN' is coded as 'USBIJ', then 'PLANE' will be coded as:",
    question_text_hi := "यदि 'TRAIN' को 'USBIJ' के रूप में कोड किया जाता है, तो 'PLANE' को कैसे कोड किया जाएगा:",
    options_en := ["QMBOF", "QNBOF", "QMBOG", "QNBOF"],
    options_hi := ["QMBOF", "QNBOF", "QMBOG", "QNBOF"],
    correct_answer := 0,
    explanation_en := "Each letter is moved one position forward in the alphabet",
    explanation_hi := "प्रत्येक अक्षर वर्णमाला में एक स्थान आगे बढ़ाया जाता है",
    exam_type := "Railway" },
  { subject := "english", difficulty := "intermediate",
    question_text_en := "Choose the correct meaning of 'Punctual':",
    question_text_hi := "'Punctual' का सही अर्थ चुनें:",
    options_en := ["Late", "On time", "Early", "Delayed"],
    options_hi := ["देर से", "समय पर", "जल्दी", "विलंबित"],
    correct_answer := 1,
    explanation_en := "Punctual means being on time or prompt",
    explanation_hi := "Punctual का अर्थ समय पर या तुरंत होना है",
    exam_type := "Railway" },
  { subject := "general_knowledge", difficulty := "intermediate",
    question_text_en := "Which is the longest railway platform in India?",
    question_text_hi := "भारत में सबसे लंबा रेलवे प्लेटफॉर्म कौन सा है?",
    options_en := ["Gorakhpur", "Kollam", "Kharagpur", "Bhubaneswar"],
    options_hi := ["गोरखपुर", "कोल्लम", "खड़गपुर", "भुवनेश्वर"],
    correct_answer := 0,
    explanation_en := "Gorakhpur Junction has the longest railway platform in India (1,366.33 m)",
    explanation_hi := "गोरखपुर जंक्शन में भारत का सबसे लंबा रेलवे प्लेटफॉर्म है (1,366.33 m)",
    exam_type := "Railway" },
  { subject := "quantitative", difficulty := "advanced",
    question_text_en := "Two trains start from stations A and B towards each other. Train from A travels at 60 km/h and from B at 40 km/h. If they meet after 2 hours, find the distance between A and B.",
    question_text_hi := "दो ट्रेनें स्टेशन A और B से एक-दूसरे की ओर चलती हैं। A से ट्रेन 60 km/h और B से 40 km/h की गति से चलती है। यदि वे 2 घंटे बाद मिलती हैं, तो A और B के बीच की दूरी ज्ञात करें।",
    options_en := ["200 km", "220 km", "240 km", "260 km"],
    options_hi := ["200 km", "220 km", "240 km", "260 km"],
    correct_answer := 0,
    explanation_en := "Relative speed = 60+40 = 100 km/h, Distance = 100×2 = 200 km",
    explanation_hi := "सापेक्ष गति = 60+40 = 100 km/h, दूरी = 100×2 = 200 km",
    exam_type := "Railway" }
]

/-- The second (surviving) `MOCK_STUDY_PLANS` list literal of server.py. -/
def MOCK_STUDY_PLANS : List MockPlan := [
  { subjects := ["quantitative", "reasoning"], description := "Focus on basic arithmetic and logical reasoning", difficulty := "beginner" },
  { subjects := ["english", "general_knowledge"], description := "Improve vocabulary and current affairs knowledge", difficulty := "intermediate" },
  { subjects := ["quantitative", "english", "reasoning"], description := "Balanced practice across all subjects", difficulty := "mixed" }
]


/-! ## Endpoint embeddings -/

/-- Request body of POST /api/users (`UserCreate`, lines 104-108). -/
structure UserCreate where
  name : String
  phone : String
  target_exam : String
  preferred_language : String
  deriving DecidableEq, Repr, Inhabited

/-- `create_user` (lines 672-683): look the phone number up; return the
existing record unchanged, or insert a fresh `User`.  `fresh_id` stands for
`uuid.uuid4()` and `now` for `datetime.now`. -/
def create_user (db : DB) (user_data : UserCreate) (fresh_id : String)
    (now : Nat) : User × DB :=
  match db.users.find? (fun u => u.phone == user_data.phone) with
  | some existing_user => (existing_user, db)
  | none =>
    let user : User :=
      { id := fresh_id, name := user_data.name, phone := user_data.phone,
        target_exam := user_data.target_exam,
        preferred_language := user_data.preferred_language,
        skill_levels := [], created_at := now }
    (user, { db with users := db.users ++ [user] })

/-- Request body of POST /api/submit-answer (lines 117-121). -/
structure SubmitAnswerRequest where
  assessment_id : String
  question_id : String
  selected_option : Int
  time_taken : Int
  deriving DecidableEq, Repr, Inhabited

/-- Response of POST /api/submit-answer (lines 801-808). -/
structure SubmitResp where
  is_correct : Bool
  correct_answer : Int
  explanation_en : String
  explanation_hi : String
  deriving DecidableEq, Repr, Inhabited

/-- `submit_answer` (lines 767-808): 404 on unknown assessment or question;
otherwise compare the selected index with the stored question, append the
`Answer` to the (first) matching assessment document, and reveal the correct
index and explanation.  The code appends to the parsed copy of the first
matching document and `$set`s its whole `answers` array, which is exactly
`updateFirst` with an append. -/
def submit_answer (db : DB) (answer_data : SubmitAnswerRequest) :
    Except String (SubmitResp × DB) :=
  match db.assessments.find? (fun a => a.id == answer_data.assessment_id) with
  | none => .error "Assessment not found"
  | some _assessment =>
    match db.questions.find? (fun q => q.id == answer_data.question_id) with
    | none => .error "Question not found"
    | some question_data =>
      let is_correct := answer_data.selected_option == question_data.correct_answer
      let answer : Answer :=
        { question_id := answer_data.question_id,
          selected_option := answer_data.selected_option,
          is_correct := is_correct, time_taken := answer_data.time_taken }
      let newAssessments :=
        updateFirst (fun a => a.id == answer_data.assessment_id)
          (fun a => { a with answers := a.answers ++ [answer] })
          db.assessments
      let db1 : DB := { db with assessments := newAssessments }
      .ok ({ is_correct := is_correct,
             correct_answer := question_data.correct_answer,
             explanation_en := question_data.explanation_en,
             explanation_hi := question_data.explanation_hi }, db1)

/-- Response of POST /api/complete-assessment (lines 873-879). -/
structure CompleteResp where
  overall_score : ℚ
  subject_scores : List (String × ℚ)
  skill_levels : List (String × String)
  total_questions : Nat
  correct_answers : Nat
  deriving DecidableEq, Repr, Inhabited

/-- The per-subject tally loop of `complete_assessment` (lines 825-834):
walk the answers in order, dereference each answered question, and keep a
dict subject-string to (correct, total). Answers whose question id no longer
resolves are skipped, as in the code. -/
def tallyAnswer (questions : List Question)
    (d : List (String × (Nat × Nat))) (a : Answer) :
    List (String × (Nat × Nat)) :=
  match questions.find? (fun q => q.id == a.question_id) with
  | none => d
  | some q =>
    let prev := (dictGet? d q.subject).getD (0, 0)
    let bumped := (prev.1 + (if a.is_correct then 1 else 0), prev.2 + 1)
    dictSet d q.subject bumped

def subjectScoresRaw (questions : List Question) (answers : List Answer) :
    List (String × (Nat × Nat)) :=
  answers.foldl (tallyAnswer questions) []

/-- The percentage conversion loop (lines 837-840):
`(correct / total) * 100 if total > 0 else 0`. -/
def toPercentages (raw : List (String × (Nat × Nat))) : List (String × ℚ) :=
  raw.map (fun p =>
    (p.1, if p.2.2 > 0 then ((p.2.1 : ℚ) / (p.2.2 : ℚ)) * 100 else 0))

/-- The skill-levels loop of `complete_assessment` (lines 859-866): a fresh
dict, one entry per subject of `subject_scores`, thresholds 80 and 50. -/
def skillLevelsFromScores (subject_scores : List (String × ℚ)) :
    List (String × String) :=
  subject_scores.foldl
    (fun d p =>
      dictSet d p.1
        (if p.2 >= 80 then "advanced"
         else if p.2 >= 50 then "intermediate"
         else "beginner"))
    []

/-- `complete_assessment` (lines 810-879): 404 on unknown assessment; compute
the overall percentage over all submitted answers, the per-subject
percentages, write score / subject_scores / completed_at onto the assessment
document, then - only when the owning user record resolves - overwrite the
user's whole `skill_levels` dict with one freshly derived from
`subject_scores`.  When the user record is absent the python `return`
references the never-assigned local `skill_levels` and raises `NameError`
(a 500), after the assessment document was already updated; the error branch
therefore still carries the updated state. -/
def complete_assessment (db : DB) (assessment_id : String) (now : Nat) :
    Except String CompleteResp × DB :=
  match db.assessments.find? (fun a => a.id == assessment_id) with
  | none => (.error "Assessment not found", db)
  | some assessment =>
    let total_questions := assessment.answers.length
    let correct_answers := (assessment.answers.filter (fun a => a.is_correct)).length
    let overall_score : ℚ :=
      if total_questions > 0 then
        ((correct_answers : ℚ) / (total_questions : ℚ)) * 100
      else 0
    let subject_scores := toPercentages (subjectScoresRaw db.questions assessment.answers)
    let newAssessments :=
      updateFirst (fun a => a.id == assessment_id)
        (fun a => { a with score := overall_score,
                           subject_scores := subject_scores,
                           completed_at := some now })
        db.assessments
    let db1 : DB := { db with assessments := newAssessments }
    match db1.users.find? (fun u => u.id == assessment.user_id) with
    | none => (.error "NameError: skill_levels referenced before assignment", db1)
    | some _user =>
      let skill_levels := skillLevelsFromScores subject_scores
      let newUsers :=
        updateFirst (fun u => u.id == assessment.user_id)
          (fun u => { u with skill_levels := skill_levels })
          db1.users
      let db2 : DB := { db1 with users := newUsers }
      (.ok { overall_score := overall_score, subject_scores := subject_scores,
             skill_levels := skill_levels, total_questions := total_questions,
             correct_answers := correct_answers }, db2)


/-! ## Diagnostic test (lines 693-765) -/

/-- The subject list iterated by `start_diagnostic_test` (line 697). -/
def CORE_SUBJECTS : List String :=
  ["quantitative", "reasoning", "english", "general_knowledge"]

/-- Positions in the catalog holding a question of the given subject.  The
code tracks question dicts by `id(q)`; since the catalog entries are twelve
distinct literal objects, object identity is position in the list, so the
used-set becomes a set of positions. -/
def subjectIndices (catalog : List SampleQ) (s : String) : List Nat :=
  (List.range catalog.length).filter (fun i => (catalog.getI i).subject == s)

/-- The first sampling pass of `start_diagnostic_test` (lines 701-710): for
each core subject take `min 3 available` unused questions, extending the
picked list and the used-set.  `sel avail k` stands for
`random.sample(avail, k)`. -/
def diagStep (catalog : List SampleQ) (sel : List Nat → Nat → List Nat)
    (acc : List Nat × List Nat) (s : String) : List Nat × List Nat :=
  let available := (subjectIndices catalog s).filter
    (fun i => !(acc.2.contains i))
  let selected := sel available (min 3 available.length)
  (acc.1 ++ selected, acc.2 ++ selected)

def diagFirstPass (catalog : List SampleQ) (sel : List Nat → Nat → List Nat) :
    List Nat × List Nat :=
  CORE_SUBJECTS.foldl (diagStep catalog sel) ([], [])

/-- The top-up loop of `start_diagnostic_test` (lines 713-720): while fewer
than 10 questions are picked, add one unused question (`pick` stands for
`random.choice`), stopping when the catalog is exhausted. -/
def diagTopUp (catalog : List SampleQ) (pick : List Nat → Nat)
    (qs used : List Nat) : List Nat × List Nat :=
  if _h : qs.length < 10 then
    let remaining := (List.range catalog.length).filter
      (fun i => !(used.contains i))
    if remaining.isEmpty then (qs, used)
    else
      let j := pick remaining
      diagTopUp catalog pick (qs ++ [j]) (used ++ [j])
  else (qs, used)
termination_by 10 - qs.length
decreasing_by simp only [List.length_append, List.length_cons, List.length_nil]; omega

/-- The full selection of `start_diagnostic_test`: first pass, top-up, then
`random.shuffle` (modelled by `shuffle`, a permutation in the theorems). -/
def diagSelect (catalog : List SampleQ) (sel : List Nat → Nat → List Nat)
    (pick : List Nat → Nat) (shuffle : List Nat → List Nat) : List Nat :=
  let fp := diagFirstPass catalog sel
  let topped := diagTopUp catalog pick fp.1 fp.2
  shuffle topped.1

/-- Lines 740-743: a sampled catalog entry becomes a stored `Question` with
a freshly generated id (the enum round-trip keeps the strings). -/
def mkDiagQuestion (q : SampleQ) (qid : String) : Question :=
  { id := qid, subject := q.subject, difficulty := q.difficulty,
    question_text_en := q.question_text_en,
    question_text_hi := q.question_text_hi,
    options_en := q.options_en, options_hi := q.options_hi,
    correct_answer := q.correct_answer,
    explanation_en := q.explanation_en, explanation_hi := q.explanation_hi,
    exam_type := q.exam_type }

/-- The serializable return value of POST /api/diagnostic-test
(lines 750-765), keeping the fields the claims speak about. -/
structure DiagResp where
  assessment_id : String
  question_ids : List String
  total_questions : Nat
  deriving DecidableEq, Repr, Inhabited

/-- `start_diagnostic_test` (lines 693-765): select question positions from
`SAMPLE_QUESTIONS`, mint one uuid per selected question (`qids`), create a
`diagnostic` assessment referencing those ids, persist the question copies
and the assessment, and return the public view.  `aid` stands for the
assessment's uuid and `now` for its creation instant. -/
def start_diagnostic_test (db : DB) (user_id : String)
    (sel : List Nat → Nat → List Nat) (pick : List Nat → Nat)
    (shuffle : List Nat → List Nat) (aid : String) (qids : Nat → String)
    (now : Nat) : DiagResp × DB :=
  let questions := (diagSelect SAMPLE_QUESTIONS sel pick shuffle).map
    (fun i => SAMPLE_QUESTIONS.getI i)
  let assessment : Assessment :=
    { id := aid, user_id := user_id, test_type := "diagnostic",
      questions := (List.range questions.length).map qids,
      answers := [], score := 0, subject_scores := [],
      completed_at := none, created_at := now }
  let question_objects := List.zipWith mkDiagQuestion questions assessment.questions
  ({ assessment_id := aid,
     question_ids := question_objects.map (fun q => q.id),
     total_questions := questions.length },
   { db with questions := db.questions ++ question_objects,
             assessments := db.assessments ++ [assessment] })

/-! ## Adaptive practice (lines 640-669 and 881-990) -/

/-- The JSON object `json.loads` recovers from the OpenAI completion in
`generate_adaptive_question` (lines 661-665).  A key the payload lacks (or
holds with an unusable type, which raises at the same spot) is `none`. -/
structure QData where
  question_text_en : Option String
  question_text_hi : Option String
  options_en : Option (List String)
  options_hi : Option (List String)
  correct_answer : Option Int
  explanation_en : Option String
  explanation_hi : Option String
  deriving DecidableEq, Repr, Inhabited

/-- A catalog dict used where the code reads `question_data[...]`: every key
is present. -/
def SampleQ.toQData (q : SampleQ) : QData :=
  { question_text_en := some q.question_text_en,
    question_text_hi := some q.question_text_hi,
    options_en := some q.options_en, options_hi := some q.options_hi,
    correct_answer := some q.correct_answer,
    explanation_en := some q.explanation_en,
    explanation_hi := some q.explanation_hi }

/-- One call of the content generator, as `generate_adaptive_question`
observes it: either `json.loads` produced an object, or anything in the
OpenAI call / parse failed (`except:` at line 666). -/
inductive GenOutcome where
  | parsed (payload : QData)
  | jsonFail
  deriving Repr, Inhabited

/-- The values of the `SubjectType` enum (lines 37-42). -/
def isValidSubject (s : String) : Bool :=
  s == "quantitative" || s == "reasoning" || s == "english" ||
  s == "general_knowledge" || s == "current_affairs"

/-- The values of the `DifficultyLevel` enum (lines 44-47). -/
def isValidDifficulty (s : String) : Bool :=
  s == "beginner" || s == "intermediate" || s == "advanced"

/-- Lines 945-957: build the `Question` pydantic model from `question_data`.
`none` when a key is missing (python `KeyError`) or the subject/difficulty
string fails enum validation - in both cases the code lands in the
`except` fallback of lines 960-985. -/
def tryBuild (target_exam subject difficulty : String) (qd : QData)
    (qid : String) : Option Question :=
  match qd.question_text_en, qd.question_text_hi, qd.options_en,
        qd.options_hi, qd.correct_answer, qd.explanation_en,
        qd.explanation_hi with
  | some te, some th, some oe, some oh, some ca, some ee, some eh =>
    if isValidSubject subject && isValidDifficulty difficulty then
      some { id := qid, subject := subject, difficulty := difficulty,
             question_text_en := te, question_text_hi := th,
             options_en := oe, options_hi := oh, correct_answer := ca,
             explanation_en := ee, explanation_hi := eh,
             exam_type := target_exam }
    else none
  | _, _, _, _, _, _, _ => none

/-- Lines 971-983: the `Question` built from a mock catalog entry in the
fallback branch; note `exam_type` is the mock entry's own tag. -/
def buildFromMock (mock : SampleQ) (qid : String) : Question :=
  { id := qid, subject := mock.subject, difficulty := mock.difficulty,
    question_text_en := mock.question_text_en,
    question_text_hi := mock.question_text_hi,
    options_en := mock.options_en, options_hi := mock.options_hi,
    correct_answer := mock.correct_answer,
    explanation_en := mock.explanation_en,
    explanation_hi := mock.explanation_hi,
    exam_type := mock.exam_type }

/-- The nondeterminism of one iteration of the generation loop: the two
`random.choice` calls, the generator outcome, the inner fallback's
`random.choice`, and the two possible fresh uuids. -/
structure IterChoice where
  pickSubject : List String → String
  gen : GenOutcome
  pickSample : List SampleQ → SampleQ
  pickMock : List SampleQ → SampleQ
  qid1 : String
  qid2 : String
  deriving Inhabited

/-- The weighted subject pool of lines 921-929: beginner subjects three
times, intermediate twice, anything else once, in dict order. -/
def weightedSubjects (skill_levels : List (String × String)) : List String :=
  skill_levels.foldl
    (fun acc p =>
      if p.2 == "beginner" then acc ++ [p.1, p.1, p.1]
      else if p.2 == "intermediate" then acc ++ [p.1, p.1]
      else acc ++ [p.1])
    []

/-- One iteration of the `for _ in range(count)` loop (lines 919-985),
threading the used-prompt set: pick a subject from the weighted pool
(the four core subjects when the user has no tier data), take the user's
tier for it as difficulty (default beginner), consult the generator
(`generate_adaptive_question`, whose own `except:` falls back to a
subject-and-difficulty-matched `SAMPLE_QUESTIONS` entry, or
`SAMPLE_QUESTIONS[0]` when none matches), and build the `Question` tagged
with the user's target exam; if that raises, fall back to an unused
`MOCK_ADAPTIVE_QUESTIONS` entry kept with its own exam tag. -/
def adaptiveIter (user : User) (used : List String) (c : IterChoice) :
    Question × List String :=
  let weighted := weightedSubjects user.skill_levels
  let pool := if weighted.isEmpty then CORE_SUBJECTS else weighted
  let selected_subject := c.pickSubject pool
  let difficulty := (dictGet? user.skill_levels selected_subject).getD "beginner"
  let question_data : QData :=
    match c.gen with
    | .parsed payload => payload
    | .jsonFail =>
      let matching := SAMPLE_QUESTIONS.filter
        (fun q => q.subject == selected_subject && q.difficulty == difficulty)
      (if matching.isEmpty then SAMPLE_QUESTIONS.headI
       else c.pickSample matching).toQData
  match tryBuild user.target_exam selected_subject difficulty question_data c.qid1 with
  | some q => (q, used)
  | none =>
    let avail0 := MOCK_ADAPTIVE_QUESTIONS.filter
      (fun q => !(used.contains q.question_text_en))
    let avail := if avail0.isEmpty then MOCK_ADAPTIVE_QUESTIONS else avail0
    let used1 := if avail0.isEmpty then [] else used
    let mock := c.pickMock avail
    (buildFromMock mock c.qid2, used1 ++ [mock.question_text_en])

/-- The whole generation loop, accumulating the returned question list. -/
def adaptiveLoop (user : User) : List IterChoice → List Question →
    List String → List Question × List String
  | [], qs, used => (qs, used)
  | c :: rest, qs, used =>
    let step := adaptiveIter user used c
    adaptiveLoop user rest (qs ++ [step.1]) step.2

/-- `get_adaptive_practice` (lines 881-990): 404 on unknown user (re-raised
as a 500 by the blanket handler); create and persist an `adaptive_practice`
assessment with an empty question list whose `test_type` is the user's
target exam; run `count` generation iterations, persisting each question;
return the batch and the assessment id.  `choices i` fixes iteration `i`'s
random draws and generator outcome. -/
def get_adaptive_practice (db : DB) (user_id : String) (count : Nat)
    (aid : String) (now : Nat) (choices : Nat → IterChoice) :
    Except String (List Question × String) × DB :=
  match db.users.find? (fun u => u.id == user_id) with
  | none => (.error "Internal server error: 404: User not found", db)
  | some user =>
    let assessment : Assessment :=
      { id := aid, user_id := user_id, test_type := user.target_exam,
        questions := [], answers := [], score := 0, subject_scores := [],
        completed_at := none, created_at := now }
    let run := adaptiveLoop user ((List.range count).map choices) [] []
    (.ok (run.1, aid),
     { db with questions := db.questions ++ run.1,
               assessments := db.assessments ++ [assessment] })

/-! ## Daily study plan (lines 1026-1065) -/

/-- The weak-subject list of lines 1042-1048: beginner subjects twice,
intermediate once, everything else dropped, in dict order. -/
def weakSubjects (skill_levels : List (String × String)) : List String :=
  skill_levels.foldl
    (fun acc p =>
      if p.2 == "beginner" then acc ++ [p.1, p.1]
      else if p.2 == "intermediate" then acc ++ [p.1]
      else acc)
    []

/-- `get_daily_study_plan` (lines 1026-1065): 404 on unknown user; return a
plan already stored for (user, today) unchanged; otherwise derive the weak
subjects (or a `random.choice` of `MOCK_STUDY_PLANS`, via `planPick`), keep
`list(set(weak[:3]))` (python set order is unspecified, so `pySet` is a
parameter constrained in theorems to a duplicate-free reordering), and
persist a pending 20-question 20-minute plan. -/
def get_daily_study_plan (db : DB) (user_id : String) (today : String)
    (planPick : List MockPlan → MockPlan) (pySet : List String → List String)
    (fresh_id : String) (now : Nat) : Except String (StudyPlan × DB) :=
  match db.users.find? (fun u => u.id == user_id) with
  | none => .error "User not found"
  | some user =>
    match db.study_plans.find?
        (fun p => p.user_id == user_id && p.date == today) with
    | some existing_plan => .ok (existing_plan, db)
    | none =>
      let weak0 := weakSubjects user.skill_levels
      let weak_subjects :=
        if weak0.isEmpty then (planPick MOCK_STUDY_PLANS).subjects else weak0
      let plan : StudyPlan :=
        { id := fresh_id, user_id := user_id, date := today,
          subjects := pySet (weak_subjects.take 3),
          questions_count := 20, estimated_time := 20,
          status := "pending", created_at := now }
      .ok (plan, { db with study_plans := db.study_plans ++ [plan] })


/-! ## Helper lemmas -/

/-- `updateFirst` on a list whose first match is `x` splits the list around
`x` and rewrites only that occurrence. -/
theorem updateFirst_decomp {α : Type} (p : α → Bool) (f : α → α)
    (l : List α) (x : α) (hx : l.find? p = some x) :
    ∃ pre post, l = pre ++ x :: post ∧ (∀ y ∈ pre, p y = false) ∧
      updateFirst p f l = pre ++ f x :: post := by
  induction l with
  | nil => simp at hx
  | cons a t ih =>
    by_cases h : p a
    · rw [List.find?_cons_of_pos _ h] at hx
      cases hx
      exact ⟨[], t, rfl, by simp, by simp [updateFirst, h]⟩
    · rw [List.find?_cons_of_neg _ h] at hx
      obtain ⟨pre, post, h1, h2, h3⟩ := ih hx
      refine ⟨a :: pre, post, by simp [h1], ?_, ?_⟩
      · intro y hy
        rcases List.mem_cons.mp hy with rfl | hy
        · exact Bool.eq_false_iff.mpr h
        · exact h2 y hy
      · simp [updateFirst, if_neg h, h3]

/-! ## C8: idempotent learner creation -/

/-- C8: `create_user` is idempotent on the phone number: when the second
request carries the same phone, the second call returns the very same user
record (hence the same learner id) and leaves the database untouched (no
second record). -/
theorem create_user_idempotent (db : DB) (r1 r2 : UserCreate)
    (id1 id2 : String) (n1 n2 : Nat) (hphone : r2.phone = r1.phone) :
    create_user (create_user db r1 id1 n1).2 r2 id2 n2
        = ((create_user db r1 id1 n1).1, (create_user db r1 id1 n1).2)
    ∧ (create_user (create_user db r1 id1 n1).2 r2 id2 n2).1.id
        = (create_user db r1 id1 n1).1.id
    ∧ ((create_user (create_user db r1 id1 n1).2 r2 id2 n2).2).users.length
        = ((create_user db r1 id1 n1).2).users.length := by
  have key : create_user (create_user db r1 id1 n1).2 r2 id2 n2
      = ((create_user db r1 id1 n1).1, (create_user db r1 id1 n1).2) := by
    cases hfind : db.users.find? (fun u => u.phone == r1.phone) with
    | some u =>
      simp only [create_user, hphone, hfind]
    | none =>
      simp only [create_user, hphone, hfind]
      simp only [List.find?_append, hfind, Option.none_or]
      simp
  exact ⟨key, by rw [key], by rw [key]⟩

/-- Witness for C8 at a concrete input: an empty store, twice the same
phone number. -/
theorem create_user_idempotent_witness :
    create_user
        (create_user ⟨[], [], [], []⟩
          ⟨"Asha", "9999900000", "SSC", "english"⟩ "uid-1" 0).2
        ⟨"Asha", "9999900000", "SSC", "english"⟩ "uid-2" 1
      = ((create_user ⟨[], [], [], []⟩
            ⟨"Asha", "9999900000", "SSC", "english"⟩ "uid-1" 0).1,
         (create_user ⟨[], [], [], []⟩
            ⟨"Asha", "9999900000", "SSC", "english"⟩ "uid-1" 0).2) :=
  (create_user_idempotent ⟨[], [], [], []⟩
    ⟨"Asha", "9999900000", "SSC", "english"⟩
    ⟨"Asha", "9999900000", "SSC", "english"⟩ "uid-1" "uid-2" 0 1 rfl).1

/-! ## C1: answer correctness is a pure index comparison -/

/-- C1: every successful `submit_answer` returns, and stores in the appended
`Answer`, an `is_correct` flag equal to `selected_option == correct_answer`
of the stored question; and the flag is independent of the assessment's
prior answers: any database with the same questions collection yields the
same flag for the same request, whatever its assessments hold. -/
theorem submit_answer_is_correct (db : DB) (req : SubmitAnswerRequest)
    (resp : SubmitResp) (db2 : DB)
    (hok : submit_answer db req = .ok (resp, db2)) :
    ∃ q, db.questions.find? (fun q => q.id == req.question_id) = some q
      ∧ resp.is_correct = (req.selected_option == q.correct_answer)
      ∧ (∃ pre a post, db.assessments = pre ++ a :: post
          ∧ db2.assessments = pre ++
              { a with answers := a.answers ++
                  [{ question_id := req.question_id,
                     selected_option := req.selected_option,
                     is_correct := resp.is_correct,
                     time_taken := req.time_taken }] } :: post)
      ∧ (∀ dbB respB dbB2, dbB.questions = db.questions →
           submit_answer dbB req = .ok (respB, dbB2) →
           respB.is_correct = resp.is_correct) := by
  unfold submit_answer at hok
  cases hA : db.assessments.find? (fun a => a.id == req.assessment_id) with
  | none => rw [hA] at hok; exact absurd hok (by simp)
  | some a0 =>
    rw [hA] at hok
    cases hQ : db.questions.find? (fun q => q.id == req.question_id) with
    | none => rw [hQ] at hok; exact absurd hok (by simp)
    | some q =>
      rw [hQ] at hok
      simp only [Except.ok.injEq, Prod.mk.injEq] at hok
      obtain ⟨hresp, hdb2⟩ := hok
      refine ⟨q, rfl, ?_, ?_, ?_⟩
      · rw [← hresp]
      · obtain ⟨pre, post, hsplit, -, hupd⟩ :=
          updateFirst_decomp (fun a => a.id == req.assessment_id)
            (fun a => { a with answers := a.answers ++
              [{ question_id := req.question_id,
                 selected_option := req.selected_option,
                 is_correct := req.selected_option == q.correct_answer,
                 time_taken := req.time_taken }] })
            db.assessments a0 hA
        refine ⟨pre, a0, post, hsplit, ?_⟩
        rw [← hdb2]
        simp only [hupd, ← hresp]
      · intro dbB respB dbB2 hsame hokB
        unfold submit_answer at hokB
        cases hAB : dbB.assessments.find? (fun a => a.id == req.assessment_id) with
        | none => rw [hAB] at hokB; exact absurd hokB (by simp)
        | some aB =>
          rw [hAB, hsame, hQ] at hokB
          simp only [Except.ok.injEq, Prod.mk.injEq] at hokB
          rw [← hokB.1, ← hresp]

/-- Concrete fixtures for the submit-answer witnesses: one stored question,
one assessment already holding an answer for that very question. -/
def wQ1 : Question :=
  { id := "q1", subject := "english", difficulty := "beginner",
    question_text_en := "x", question_text_hi := "y",
    options_en := ["a", "b", "c", "d"], options_hi := ["a", "b", "c", "d"],
    correct_answer := 1, explanation_en := "e", explanation_hi := "f",
    exam_type := "SSC" }

def wPriorAnswer : Answer :=
  { question_id := "q1", selected_option := 0, is_correct := false,
    time_taken := 4 }

def wAssess1 : Assessment :=
  { id := "a1", user_id := "u1", test_type := "diagnostic",
    questions := ["q1"], answers := [wPriorAnswer], score := 0,
    subject_scores := [], completed_at := none, created_at := 0 }

def wDB1 : DB := ⟨[], [wQ1], [wAssess1], []⟩

def wReq1 : SubmitAnswerRequest :=
  { assessment_id := "a1", question_id := "q1", selected_option := 1,
    time_taken := 7 }

def wNewAnswer : Answer :=
  { question_id := "q1", selected_option := 1, is_correct := true,
    time_taken := 7 }

def wResp1 : SubmitResp :=
  { is_correct := true, correct_answer := 1, explanation_en := "e",
    explanation_hi := "f" }

def wDB1b : DB :=
  ⟨[], [wQ1],
   [{ wAssess1 with answers := [wPriorAnswer, wNewAnswer] }], []⟩

/-- Witness for C1 at the concrete fixture (the question was already
answered once, and the flag is still the pure index comparison). -/
theorem submit_answer_is_correct_witness :
    wResp1.is_correct = (wReq1.selected_option == wQ1.correct_answer) := by
  obtain ⟨q, hq, hflag, -, -⟩ :=
    submit_answer_is_correct wDB1 wReq1 wResp1 wDB1b rfl
  have h0 : wDB1.questions.find? (fun x => x.id == wReq1.question_id)
      = some wQ1 := rfl
  rw [h0] at hq
  cases hq
  exact hflag


/-! ## C10: submit_answer appends one answer and changes nothing else -/

/-- C10: a successful `submit_answer` changes no collection other than the
assessments, and there it rewrites only the first assessment matching the
id: its answer list gains exactly one `Answer` at the end (also when the
question was already answered - nothing guards against duplicates), and its
questions, score, subject_scores, completed_at, created_at, test_type and
user_id keep their prior values; every other assessment is untouched. -/
theorem submit_answer_frame (db : DB) (req : SubmitAnswerRequest)
    (resp : SubmitResp) (db2 : DB)
    (hok : submit_answer db req = .ok (resp, db2)) :
    db2.users = db.users ∧ db2.questions = db.questions
    ∧ db2.study_plans = db.study_plans
    ∧ ∃ pre a aNew post,
        db.assessments = pre ++ a :: post
        ∧ (∀ b ∈ pre, (b.id == req.assessment_id) = false)
        ∧ (a.id == req.assessment_id) = true
        ∧ db2.assessments = pre ++ aNew :: post
        ∧ aNew.answers = a.answers ++
            [{ question_id := req.question_id,
               selected_option := req.selected_option,
               is_correct := resp.is_correct,
               time_taken := req.time_taken }]
        ∧ aNew.questions = a.questions ∧ aNew.score = a.score
        ∧ aNew.subject_scores = a.subject_scores
        ∧ aNew.completed_at = a.completed_at
        ∧ aNew.created_at = a.created_at
        ∧ aNew.test_type = a.test_type ∧ aNew.user_id = a.user_id := by
  unfold submit_answer at hok
  cases hA : db.assessments.find? (fun a => a.id == req.assessment_id) with
  | none => rw [hA] at hok; exact absurd hok (by simp)
  | some a0 =>
    rw [hA] at hok
    cases hQ : db.questions.find? (fun q => q.id == req.question_id) with
    | none => rw [hQ] at hok; exact absurd hok (by simp)
    | some q =>
      rw [hQ] at hok
      simp only [Except.ok.injEq, Prod.mk.injEq] at hok
      obtain ⟨hresp, hdb2⟩ := hok
      subst hdb2
      refine ⟨rfl, rfl, rfl, ?_⟩
      obtain ⟨pre, post, hsplit, hpre, hupd⟩ :=
        updateFirst_decomp (fun a => a.id == req.assessment_id)
          (fun a => { a with answers := a.answers ++
            [{ question_id := req.question_id,
               selected_option := req.selected_option,
               is_correct := req.selected_option == q.correct_answer,
               time_taken := req.time_taken }] })
          db.assessments a0 hA
      refine ⟨pre, a0,
        { a0 with answers := a0.answers ++
            [{ question_id := req.question_id,
               selected_option := req.selected_option,
               is_correct := req.selected_option == q.correct_answer,
               time_taken := req.time_taken }] },
        post, hsplit, hpre, ?_, hupd, ?_,
        rfl, rfl, rfl, rfl, rfl, rfl, rfl⟩
      · have := List.find?_some hA
        simpa using this
      · rw [← hresp]

/-- Witness for C10 at the same fixture as C1: the assessment already held
an answer for the question; the call leaves users, questions and study
plans unchanged and appends the one new answer. -/
theorem submit_answer_frame_witness :
    (wDB1b.users = wDB1.users ∧ wDB1b.questions = wDB1.questions
      ∧ wDB1b.study_plans = wDB1.study_plans)
    ∧ wDB1b.assessments
        = [{ wAssess1 with answers := wAssess1.answers ++ [wNewAnswer] }] := by
  obtain ⟨h1, h2, h3, -⟩ := submit_answer_frame wDB1 wReq1 wResp1 wDB1b rfl
  exact ⟨⟨h1, h2, h3⟩, rfl⟩

/-! ## Association-list lemmas for the scoring dicts -/

theorem mem_dictSet {α : Type} (d : List (String × α)) (k : String) (v : α)
    (x : String × α) (hx : x ∈ dictSet d k v) : x = (k, v) ∨ x ∈ d := by
  induction d with
  | nil => simpa [dictSet] using hx
  | cons p rest ih =>
    by_cases h : p.1 == k
    · simp only [dictSet, if_pos h, List.mem_cons] at hx
      rcases hx with rfl | hx
      · exact Or.inl rfl
      · exact Or.inr (List.mem_cons_of_mem p hx)
    · simp only [dictSet, if_neg h, List.mem_cons] at hx
      rcases hx with rfl | hx
      · exact Or.inr (List.mem_cons_self _ _)
      · rcases ih hx with h1 | h1
        · exact Or.inl h1
        · exact Or.inr (List.mem_cons_of_mem p h1)

theorem dictGet?_mem {α : Type} (d : List (String × α)) (k : String) (v : α)
    (h : dictGet? d k = some v) : (k, v) ∈ d := by
  unfold dictGet? at h
  cases hf : d.find? (fun p => p.1 == k) with
  | none => simp [hf] at h
  | some p =>
    rw [hf] at h
    simp at h
    have hp := List.find?_some hf
    have hmem := List.mem_of_find?_eq_some hf
    have hk : p.1 = k := by simpa using hp
    have : p = (k, v) := by
      cases p
      simp_all
    rwa [this] at hmem

theorem keys_dictSet_sub {α : Type} (d : List (String × α)) (k : String)
    (v : α) (s : String) (hs : s ∈ (dictSet d k v).map Prod.fst) :
    s = k ∨ s ∈ d.map Prod.fst := by
  obtain ⟨x, hx, rfl⟩ := List.mem_map.mp hs
  rcases mem_dictSet d k v x hx with rfl | hx
  · exact Or.inl rfl
  · exact Or.inr (List.mem_map_of_mem Prod.fst hx)

theorem nodup_keys_dictSet {α : Type} (d : List (String × α)) (k : String)
    (v : α) (hd : (d.map Prod.fst).Nodup) :
    ((dictSet d k v).map Prod.fst).Nodup := by
  induction d with
  | nil => simp [dictSet]
  | cons p rest ih =>
    simp only [List.map_cons, List.nodup_cons] at hd
    by_cases h : p.1 == k
    · have hk : p.1 = k := by simpa using h
      simp only [dictSet, if_pos h, List.map_cons, List.nodup_cons]
      exact ⟨by rw [← hk]; exact hd.1, hd.2⟩
    · have hk : ¬p.1 = k := by simpa using h
      simp only [dictSet, if_neg h, List.map_cons, List.nodup_cons]
      refine ⟨?_, ih hd.2⟩
      intro hmem
      rcases keys_dictSet_sub rest k v p.1 hmem with h1 | h1
      · exact hk h1
      · exact hd.1 h1

theorem dictSet_fresh {α : Type} (d : List (String × α)) (k : String)
    (v : α) (hk : k ∉ d.map Prod.fst) : dictSet d k v = d ++ [(k, v)] := by
  induction d with
  | nil => simp [dictSet]
  | cons p rest ih =>
    simp only [List.map_cons, List.mem_cons] at hk
    push_neg at hk
    have h : ¬(p.1 == k) = true := by
      simp only [beq_iff_eq]
      exact fun hc => hk.1 hc.symm
    simp only [dictSet, if_neg h, List.cons_append, List.cons.injEq, true_and]
    exact ih hk.2

theorem dictGet?_eq_none_of_not_mem_keys {α : Type} (d : List (String × α))
    (s : String) (hs : s ∉ d.map Prod.fst) : dictGet? d s = none := by
  unfold dictGet?
  rw [List.find?_eq_none.mpr]
  · rfl
  · intro p hp hc
    exact hs (List.mem_map.mpr ⟨p, hp, by simpa using hc⟩)

theorem dictGet?_map_of_mem {α : Type} (scores : List (String × ℚ))
    (f : ℚ → α) (s : String) (sc : ℚ) (hmem : (s, sc) ∈ scores)
    (hnd : (scores.map Prod.fst).Nodup) :
    dictGet? (scores.map (fun p => (p.1, f p.2))) s = some (f sc) := by
  induction scores with
  | nil => simp at hmem
  | cons p rest ih =>
    simp only [List.map_cons, List.nodup_cons] at hnd
    rcases List.mem_cons.mp hmem with heq | hmem2
    · rw [← heq]
      simp [dictGet?, List.find?_cons_of_pos]
    · have hne : ¬(p.1 = s) := by
        intro hc
        exact hnd.1 (List.mem_map.mpr ⟨(s, sc), hmem2, by simp [hc]⟩)
      have := ih hmem2 hnd.2
      simp only [dictGet?] at this ⊢
      rw [List.map_cons, List.find?_cons_of_neg]
      · exact this
      · simpa using hne


/-! ## Tally invariants -/

/-- One tally step keeps every (correct, total) pair with correct <= total. -/
theorem tallyAnswer_le (questions : List Question)
    (d : List (String × (Nat × Nat))) (a : Answer)
    (hd : ∀ p ∈ d, p.2.1 ≤ p.2.2) :
    ∀ p ∈ tallyAnswer questions d a, p.2.1 ≤ p.2.2 := by
  intro p hp
  unfold tallyAnswer at hp
  cases hq : questions.find? (fun q => q.id == a.question_id) with
  | none => rw [hq] at hp; exact hd p hp
  | some q =>
    rw [hq] at hp
    simp only at hp
    rcases mem_dictSet _ _ _ _ hp with rfl | hmem
    · have hprev : ((dictGet? d q.subject).getD (0, 0)).1
          ≤ ((dictGet? d q.subject).getD (0, 0)).2 := by
        cases hget : dictGet? d q.subject with
        | none => simp
        | some pr =>
          have := hd (q.subject, pr) (dictGet?_mem d q.subject pr hget)
          simpa [hget] using this
      have hb : (if a.is_correct then 1 else 0) ≤ 1 := by
        split <;> omega
      simp only
      omega
    · exact hd p hmem

/-- `subjectScoresRaw` never counts more correct than total answers. -/
theorem subjectScoresRaw_le (questions : List Question)
    (answers : List Answer) :
    ∀ p ∈ subjectScoresRaw questions answers, p.2.1 ≤ p.2.2 := by
  suffices h : ∀ d, (∀ p ∈ d, p.2.1 ≤ p.2.2) →
      ∀ p ∈ answers.foldl (tallyAnswer questions) d, p.2.1 ≤ p.2.2 by
    exact h [] (by simp)
  induction answers with
  | nil => intro d hd; simpa using hd
  | cons a rest ih =>
    intro d hd
    simp only [List.foldl_cons]
    exact ih _ (tallyAnswer_le questions d a hd)

/-- One tally step keeps the dict keys duplicate-free. -/
theorem tallyAnswer_nodup (questions : List Question)
    (d : List (String × (Nat × Nat))) (a : Answer)
    (hd : (d.map Prod.fst).Nodup) :
    ((tallyAnswer questions d a).map Prod.fst).Nodup := by
  unfold tallyAnswer
  cases questions.find? (fun q => q.id == a.question_id) with
  | none => exact hd
  | some q => exact nodup_keys_dictSet _ _ _ hd

/-- The subject dict built by `complete_assessment` has duplicate-free
keys. -/
theorem subjectScoresRaw_nodup (questions : List Question)
    (answers : List Answer) :
    ((subjectScoresRaw questions answers).map Prod.fst).Nodup := by
  suffices h : ∀ d, (d.map Prod.fst).Nodup →
      ((answers.foldl (tallyAnswer questions) d).map Prod.fst).Nodup by
    exact h [] (by simp)
  induction answers with
  | nil => intro d hd; simpa using hd
  | cons a rest ih =>
    intro d hd
    simp only [List.foldl_cons]
    exact ih _ (tallyAnswer_nodup questions d a hd)

/-- Folding `dictSet` over fresh, pairwise-distinct keys is an append of the
mapped pairs. -/
theorem foldl_dictSet_fresh {α : Type} (val : String × ℚ → α) :
    ∀ (scores : List (String × ℚ)) (d : List (String × α)),
      (∀ p ∈ scores, p.1 ∉ d.map Prod.fst) →
      (scores.map Prod.fst).Nodup →
      scores.foldl (fun d p => dictSet d p.1 (val p)) d
        = d ++ scores.map (fun p => (p.1, val p)) := by
  intro scores
  induction scores with
  | nil => intro d _ _; simp
  | cons p rest ih =>
    intro d hfresh hnd
    simp only [List.map_cons, List.nodup_cons] at hnd
    simp only [List.foldl_cons]
    rw [dictSet_fresh d p.1 (val p) (hfresh p (List.mem_cons_self _ _))]
    rw [ih (d ++ [(p.1, val p)]) ?_ hnd.2]
    · simp
    · intro q hq
      simp only [List.map_append, List.mem_append]
      rintro (hda | hsingle)
      · exact hfresh q (List.mem_cons_of_mem p hq) hda
      · have hq1 : q.1 = p.1 := by simpa using hsingle
        exact hnd.1 (List.mem_map.mpr ⟨q, hq, hq1⟩)

/-- With duplicate-free keys, the skill-levels loop is a pointwise map of
the threshold function over the subject scores. -/
theorem skillLevelsFromScores_eq_map (scores : List (String × ℚ))
    (hnd : (scores.map Prod.fst).Nodup) :
    skillLevelsFromScores scores = scores.map (fun p => (p.1,
      if p.2 >= 80 then "advanced"
      else if p.2 >= 50 then "intermediate"
      else "beginner")) := by
  have h := foldl_dictSet_fresh
    (fun p => if p.2 >= 80 then "advanced"
      else if p.2 >= 50 then "intermediate" else "beginner")
    scores [] (by simp) hnd
  simpa [skillLevelsFromScores] using h

/-! ## C2: tier thresholds on completion -/

/-- C2: when `complete_assessment` succeeds (in particular the owning
learner record exists), the learner's stored record is overwritten with
`resp.skill_levels`, and for every subject of the reported subject scores
the tier looked up there obeys the thresholds: 80 and above advanced, 50 up
to 80 intermediate, below 50 beginner. -/
theorem complete_assessment_tier_law (db : DB) (assessment_id : String)
    (now : Nat) (resp : CompleteResp) (db2 : DB)
    (hok : complete_assessment db assessment_id now = (.ok resp, db2)) :
    (∃ (pre : List User) (u : User) (post : List User),
        db.users = pre ++ u :: post
        ∧ db2.users = pre ++ ({ u with skill_levels := resp.skill_levels }) :: post)
    ∧ (∀ s sc, (s, sc) ∈ resp.subject_scores →
        ∃ tier, dictGet? resp.skill_levels s = some tier
          ∧ (sc >= 80 → tier = "advanced")
          ∧ (50 <= sc ∧ sc < 80 → tier = "intermediate")
          ∧ (sc < 50 → tier = "beginner")) := by
  unfold complete_assessment at hok
  cases hA : db.assessments.find? (fun a => a.id == assessment_id) with
  | none => rw [hA] at hok; exact absurd hok (by simp)
  | some assessment =>
    rw [hA] at hok
    simp only at hok
    cases hU : db.users.find? (fun u => u.id == assessment.user_id) with
    | none => rw [hU] at hok; exact absurd hok (by simp)
    | some u0 =>
      rw [hU] at hok
      simp only [Prod.mk.injEq, Except.ok.injEq] at hok
      obtain ⟨hresp, hdb2⟩ := hok
      have hndraw := subjectScoresRaw_nodup db.questions assessment.answers
      have hndkeys : ((toPercentages
          (subjectScoresRaw db.questions assessment.answers)).map Prod.fst).Nodup := by
        simpa [toPercentages, List.map_map, Function.comp] using hndraw
      constructor
      · obtain ⟨pre, post, hsplit, -, hupd⟩ :=
          updateFirst_decomp (fun u => u.id == assessment.user_id)
            (fun u => { u with skill_levels := skillLevelsFromScores (toPercentages (subjectScoresRaw db.questions assessment.answers)) })
            db.users u0 hU
        refine ⟨pre, u0, post, hsplit, ?_⟩
        rw [← hdb2]
        simp only [hupd, ← hresp]
      · intro s sc hmem
        rw [← hresp] at hmem
        simp only at hmem
        rw [← hresp]
        simp only
        rw [skillLevelsFromScores_eq_map _ hndkeys]
        refine ⟨if sc >= 80 then "advanced"
          else if sc >= 50 then "intermediate" else "beginner",
          dictGet?_map_of_mem _ (fun x => if x >= 80 then "advanced" else if x >= 50 then "intermediate" else "beginner") s sc hmem hndkeys, ?_, ?_, ?_⟩
        · intro h; rw [if_pos h]
        · rintro ⟨h1, h2⟩
          rw [if_neg (by exact not_le.mpr h2), if_pos h1]
        · intro h
          rw [if_neg (by exact not_le.mpr (by linarith)),
              if_neg (by exact not_le.mpr (by linarith))]

/-- Concrete fixture for the completion witnesses: a learner whose prior
tier mapping covers a different subject, and a one-answer (correct, english)
completed run. -/
def cUserA : User :=
  { id := "u1", name := "Asha", phone := "9999900000", target_exam := "SSC",
    preferred_language := "english",
    skill_levels := [("quantitative", "advanced")], created_at := 0 }

def cAssessA : Assessment :=
  { id := "a1", user_id := "u1", test_type := "diagnostic",
    questions := ["q1"],
    answers := [{ question_id := "q1", selected_option := 1,
                  is_correct := true, time_taken := 5 }],
    score := 0, subject_scores := [], completed_at := none, created_at := 0 }

def cDBA : DB := ⟨[cUserA], [wQ1], [cAssessA], []⟩

def cRespA : CompleteResp :=
  { overall_score := 100, subject_scores := [("english", 100)],
    skill_levels := [("english", "advanced")], total_questions := 1,
    correct_answers := 1 }

def cDB2A : DB :=
  ⟨[{ cUserA with skill_levels := [("english", "advanced")] }], [wQ1],
   [{ cAssessA with score := 100, subject_scores := [("english", 100)], completed_at := some 99 }], []⟩

/-- Evaluation of `complete_assessment` at the concrete fixture. -/
theorem cDBA_complete_eval :
    complete_assessment cDBA "a1" 99 = (.ok cRespA, cDB2A) := by
  simp only [complete_assessment, cDBA, cAssessA, cUserA, cRespA, cDB2A, wQ1,
    subjectScoresRaw, tallyAnswer, toPercentages, skillLevelsFromScores,
    dictGet?, dictSet, updateFirst, List.find?, List.foldl, List.map]
  norm_num [tallyAnswer, List.find?, dictGet?, dictSet]

/-- Witness for C2: the english score of 100 yields tier advanced on the
stored learner mapping. -/
theorem complete_assessment_tier_law_witness :
    dictGet? cRespA.skill_levels "english" = some "advanced" := by
  obtain ⟨-, hlaw⟩ :=
    complete_assessment_tier_law cDBA "a1" 99 cRespA cDB2A cDBA_complete_eval
  obtain ⟨tier, hget, h80, -, -⟩ := hlaw "english" 100 (by simp [cRespA])
  rw [h80 (by norm_num)] at hget
  exact hget


/-! ## C3: the tier mapping is wholesale replaced -/

/-- C3: on successful completion the learner's stored mapping becomes
exactly `resp.skill_levels`, whose key list equals the key list of this
assessment's `subject_scores`; any subject absent from those scores has no
tier in the new mapping, so previously recorded tiers for uncovered
subjects are lost. -/
theorem complete_assessment_replaces_mapping (db : DB)
    (assessment_id : String) (now : Nat) (resp : CompleteResp) (db2 : DB)
    (hok : complete_assessment db assessment_id now = (.ok resp, db2)) :
    (∃ (pre : List User) (u : User) (post : List User),
        db.users = pre ++ u :: post
        ∧ db2.users = pre ++ ({ u with skill_levels := resp.skill_levels }) :: post)
    ∧ resp.skill_levels.map Prod.fst = resp.subject_scores.map Prod.fst
    ∧ (∀ s, s ∉ resp.subject_scores.map Prod.fst →
        dictGet? resp.skill_levels s = none) := by
  unfold complete_assessment at hok
  cases hA : db.assessments.find? (fun a => a.id == assessment_id) with
  | none => rw [hA] at hok; exact absurd hok (by simp)
  | some assessment =>
    rw [hA] at hok
    simp only at hok
    cases hU : db.users.find? (fun u => u.id == assessment.user_id) with
    | none => rw [hU] at hok; exact absurd hok (by simp)
    | some u0 =>
      rw [hU] at hok
      simp only [Prod.mk.injEq, Except.ok.injEq] at hok
      obtain ⟨hresp, hdb2⟩ := hok
      have hndraw := subjectScoresRaw_nodup db.questions assessment.answers
      have hndkeys : ((toPercentages
          (subjectScoresRaw db.questions assessment.answers)).map Prod.fst).Nodup := by
        simpa [toPercentages, List.map_map, Function.comp] using hndraw
      have hkeys : resp.skill_levels.map Prod.fst
          = resp.subject_scores.map Prod.fst := by
        rw [← hresp]
        simp only
        rw [skillLevelsFromScores_eq_map _ hndkeys]
        simp [List.map_map, Function.comp]
      refine ⟨?_, hkeys, ?_⟩
      · obtain ⟨pre, post, hsplit, -, hupd⟩ :=
          updateFirst_decomp (fun u => u.id == assessment.user_id)
            (fun u => { u with skill_levels := skillLevelsFromScores (toPercentages (subjectScoresRaw db.questions assessment.answers)) })
            db.users u0 hU
        refine ⟨pre, u0, post, hsplit, ?_⟩
        rw [← hdb2]
        simp only [hupd, ← hresp]
      · intro s hs
        rw [← hkeys] at hs
        exact dictGet?_eq_none_of_not_mem_keys _ s hs

/-- Witness for C3: the learner's prior quantitative tier is gone after an
english-only completion, and the new key list is exactly the scored
subjects. -/
theorem complete_assessment_replaces_mapping_witness :
    cRespA.skill_levels.map Prod.fst = cRespA.subject_scores.map Prod.fst
    ∧ dictGet? cRespA.skill_levels "quantitative" = none
    ∧ dictGet? cUserA.skill_levels "quantitative" = some "advanced" := by
  obtain ⟨-, hkeys, hnone⟩ :=
    complete_assessment_replaces_mapping cDBA "a1" 99 cRespA cDB2A
      cDBA_complete_eval
  refine ⟨hkeys, hnone "quantitative" ?_, rfl⟩
  simp [cRespA]

/-! ## C5: score bounds -/

/-- The percentage formula of `complete_assessment` stays within 0..100 as
soon as correct <= total. -/
theorem pct_in_range (c t : Nat) (hct : c ≤ t) :
    0 ≤ (if t > 0 then ((c : ℚ) / (t : ℚ)) * 100 else 0)
    ∧ (if t > 0 then ((c : ℚ) / (t : ℚ)) * 100 else 0) ≤ 100 := by
  split
  case isTrue ht =>
    have htq : (0 : ℚ) < (t : ℚ) := by exact_mod_cast ht
    have h1 : (c : ℚ) / (t : ℚ) ≤ 1 := by
      rw [div_le_one htq]
      exact_mod_cast hct
    have h0 : (0 : ℚ) ≤ (c : ℚ) / (t : ℚ) := by positivity
    constructor
    · positivity
    · nlinarith
  case isFalse ht => norm_num

/-- C5: a successful completion reports an overall score in [0, 100] when
the answer list is non-empty, overall score 0 (not a division error) when
it is empty, and per-subject scores in [0, 100]. -/
theorem complete_assessment_score_bounds (db : DB) (assessment_id : String)
    (now : Nat) (resp : CompleteResp) (db2 : DB)
    (hok : complete_assessment db assessment_id now = (.ok resp, db2)) :
    ∃ assessment,
      db.assessments.find? (fun a => a.id == assessment_id) = some assessment
      ∧ (assessment.answers ≠ [] →
          0 ≤ resp.overall_score ∧ resp.overall_score ≤ 100)
      ∧ (assessment.answers = [] → resp.overall_score = 0)
      ∧ (∀ s sc, (s, sc) ∈ resp.subject_scores → 0 ≤ sc ∧ sc ≤ 100) := by
  unfold complete_assessment at hok
  cases hA : db.assessments.find? (fun a => a.id == assessment_id) with
  | none => rw [hA] at hok; exact absurd hok (by simp)
  | some assessment =>
    rw [hA] at hok
    simp only at hok
    cases hU : db.users.find? (fun u => u.id == assessment.user_id) with
    | none => rw [hU] at hok; exact absurd hok (by simp)
    | some u0 =>
      rw [hU] at hok
      simp only [Prod.mk.injEq, Except.ok.injEq] at hok
      obtain ⟨hresp, -⟩ := hok
      refine ⟨assessment, rfl, ?_, ?_, ?_⟩
      · intro _hne
        rw [← hresp]
        simp only
        exact pct_in_range _ _
          (List.length_filter_le (fun a => a.is_correct) assessment.answers)
      · intro hempty
        rw [← hresp]
        simp [hempty]
      · intro s sc hmem
        rw [← hresp] at hmem
        simp only [toPercentages] at hmem
        obtain ⟨p, hp, heq⟩ := List.mem_map.mp hmem
        have hle := subjectScoresRaw_le db.questions assessment.answers p hp
        have hsc : sc = if p.2.2 > 0 then ((p.2.1 : ℚ) / (p.2.2 : ℚ)) * 100 else 0 := by
          have := congrArg Prod.snd heq
          simpa using this.symm
        rw [hsc]
        exact pct_in_range _ _ hle

/-- Witness for C5: the fixture's one-answer completion reports overall
score 100, inside the bounds. -/
theorem complete_assessment_score_bounds_witness :
    0 ≤ cRespA.overall_score ∧ cRespA.overall_score ≤ 100 := by
  obtain ⟨a, ha, hb, -, -⟩ :=
    complete_assessment_score_bounds cDBA "a1" 99 cRespA cDB2A
      cDBA_complete_eval
  have h0 : cDBA.assessments.find? (fun x => x.id == "a1") = some cAssessA := rfl
  rw [h0] at ha
  cases ha
  exact hb (by simp [cAssessA])


/-! ## C9: daily plan idempotence and shape -/

/-- C9: two `get_daily_study_plan` calls for the same existing learner on
the same date return the very same plan (same id, same subject list) and
the second call inserts nothing; every plan the endpoint creates (first
call on a date with no stored plan) carries at most 3 duplicate-free
subjects, questions_count 20, estimated_time 20 and status pending.
`pySet` abstracts python's `list(set(...))`: duplicate-free, same
membership, unspecified order. -/
theorem get_daily_study_plan_idempotent (db : DB) (user_id today : String)
    (planPick : List MockPlan → MockPlan) (pySet : List String → List String)
    (id1 id2 : String) (n1 n2 : Nat)
    (hnd : ∀ l, (pySet l).Nodup)
    (hmem : ∀ l x, x ∈ pySet l ↔ x ∈ l)
    (p1 : StudyPlan) (db1 : DB)
    (hok : get_daily_study_plan db user_id today planPick pySet id1 n1
      = .ok (p1, db1)) :
    get_daily_study_plan db1 user_id today planPick pySet id2 n2
      = .ok (p1, db1)
    ∧ (db.study_plans.find?
          (fun p => p.user_id == user_id && p.date == today) = none →
        p1.subjects.length ≤ 3 ∧ p1.subjects.Nodup
        ∧ p1.questions_count = 20 ∧ p1.estimated_time = 20
        ∧ p1.status = "pending") := by
  unfold get_daily_study_plan at hok
  cases hu : db.users.find? (fun u => u.id == user_id) with
  | none => rw [hu] at hok; exact absurd hok (by simp)
  | some user =>
    rw [hu] at hok
    cases hp : db.study_plans.find?
        (fun p => p.user_id == user_id && p.date == today) with
    | some existing_plan =>
      rw [hp] at hok
      simp only [Except.ok.injEq, Prod.mk.injEq] at hok
      obtain ⟨hq, hdb⟩ := hok
      subst hq hdb
      constructor
      · unfold get_daily_study_plan
        rw [hu, hp]
      · intro hnone
        exact absurd hnone (by simp)
    | none =>
      rw [hp] at hok
      simp only [Except.ok.injEq, Prod.mk.injEq] at hok
      obtain ⟨hq, hdb⟩ := hok
      constructor
      · unfold get_daily_study_plan
        have hu1 : db1.users.find? (fun u => u.id == user_id) = some user := by
          rw [← hdb]; exact hu
        have hself : (p1.user_id == user_id && p1.date == today) = true := by
          rw [← hq]; simp
        have hfind1 : db1.study_plans.find?
            (fun p => p.user_id == user_id && p.date == today) = some p1 := by
          have hplans : db1.study_plans = db.study_plans ++ [p1] := by
            rw [← hdb, ← hq]
          rw [hplans, List.find?_append, hp, Option.none_or]
          simp [List.find?_cons, hself]
        rw [hu1, hfind1]
      · intro _hnone
        have hsubs : p1.subjects
            = pySet ((if (weakSubjects user.skill_levels).isEmpty
                then (planPick MOCK_STUDY_PLANS).subjects
                else weakSubjects user.skill_levels).take 3) := by
          rw [← hq]
        refine ⟨?_, ?_, by rw [← hq], by rw [← hq], by rw [← hq]⟩
        · rw [hsubs]
          have hsubset : pySet ((if (weakSubjects user.skill_levels).isEmpty
                then (planPick MOCK_STUDY_PLANS).subjects
                else weakSubjects user.skill_levels).take 3)
              ⊆ ((if (weakSubjects user.skill_levels).isEmpty
                then (planPick MOCK_STUDY_PLANS).subjects
                else weakSubjects user.skill_levels).take 3) :=
            fun x hx => (hmem _ x).mp hx
          have hlen := ((hnd _).subperm hsubset).length_le
          have htake := List.length_take_le 3
            ((if (weakSubjects user.skill_levels).isEmpty
                then (planPick MOCK_STUDY_PLANS).subjects
                else weakSubjects user.skill_levels))
          omega
        · rw [hsubs]; exact hnd _

/-- Fixture for the C9 witness: one learner with a beginner and an
intermediate subject, no stored plan. -/
def sUserA : User :=
  { id := "u1", name := "Asha", phone := "9999900000", target_exam := "SSC",
    preferred_language := "english",
    skill_levels := [("quantitative", "beginner"), ("english", "intermediate")],
    created_at := 0 }

def sDBA : DB := ⟨[sUserA], [], [], []⟩

def sPlanA : StudyPlan :=
  { id := "pl1", user_id := "u1", date := "2024-01-01",
    subjects := ["quantitative", "english"], questions_count := 20,
    estimated_time := 20, status := "pending", created_at := 5 }

def sDBA1 : DB := ⟨[sUserA], [], [], [sPlanA]⟩

/-- Witness for C9 at the fixture: the second same-day call returns the
stored plan and the created plan has the required shape. -/
theorem get_daily_study_plan_idempotent_witness :
    get_daily_study_plan sDBA1 "u1" "2024-01-01" (fun l => l.headI)
        (fun l => l.dedup) "pl2" 6 = .ok (sPlanA, sDBA1)
    ∧ sPlanA.subjects.length ≤ 3 ∧ sPlanA.subjects.Nodup
    ∧ sPlanA.questions_count = 20 := by
  obtain ⟨h1, h2⟩ := get_daily_study_plan_idempotent sDBA "u1" "2024-01-01"
    (fun l => l.headI) (fun l => l.dedup) "pl1" "pl2" 5 6
    (fun l => l.nodup_dedup) (fun l x => l.mem_dedup)
    sPlanA sDBA1 rfl
  obtain ⟨hl, hnd2, hq, -, -⟩ := h2 rfl
  exact ⟨h1, hl, hnd2, hq⟩


/-! ## C4: diagnostic question count on the shipped catalog -/

/-- Filtering out used indices is the identity when none is used. -/
theorem filter_not_contains_of_disjoint (l used : List Nat)
    (h : ∀ i ∈ l, i ∉ used) :
    l.filter (fun i => !(used.contains i)) = l := by
  induction l with
  | nil => rfl
  | cons a t ih =>
    have hcond : (!(used.contains a)) = true := by
      have := h a (List.mem_cons_self a t)
      simpa using this
    rw [List.filter_cons_of_pos (p := fun i => !used.contains i) hcond,
      ih (fun i hi => h i (List.mem_cons_of_mem a hi))]

/-- One per-subject sampling step of the diagnostic, on a subject slice
disjoint from the used-set: it adds `min 3 slice` picks, all members of the
slice. -/
theorem diagStep_spec (sel : List Nat → Nat → List Nat)
    (hlen : ∀ l k, k ≤ l.length → (sel l k).length = k)
    (hsub : ∀ l k x, x ∈ sel l k → x ∈ l)
    (acc : List Nat × List Nat) (s : String) (idxs : List Nat)
    (hidx : subjectIndices SAMPLE_QUESTIONS s = idxs)
    (hdisj : ∀ i ∈ idxs, i ∉ acc.2) :
    (diagStep SAMPLE_QUESTIONS sel acc s).1.length
        = acc.1.length + min 3 idxs.length
    ∧ (∀ x ∈ (diagStep SAMPLE_QUESTIONS sel acc s).1, x ∈ acc.1 ∨ x ∈ idxs)
    ∧ (∀ x ∈ (diagStep SAMPLE_QUESTIONS sel acc s).2, x ∈ acc.2 ∨ x ∈ idxs) := by
  unfold diagStep
  rw [hidx, filter_not_contains_of_disjoint idxs acc.2 hdisj]
  refine ⟨?_, ?_, ?_⟩
  · simp only [List.length_append]
    rw [hlen idxs (min 3 idxs.length) (Nat.min_le_right 3 idxs.length)]
  · intro x hx
    rcases List.mem_append.mp hx with h1 | h1
    · exact Or.inl h1
    · exact Or.inr (hsub _ _ x h1)
  · intro x hx
    rcases List.mem_append.mp hx with h1 | h1
    · exact Or.inl h1
    · exact Or.inr (hsub _ _ x h1)

/-- On the shipped 12-question catalog (3 per core subject) the first pass
already collects 12 pairwise-distinct positions, whatever `random.sample`
returned. -/
theorem diagFirstPass_sample (sel : List Nat → Nat → List Nat)
    (hlen : ∀ l k, k ≤ l.length → (sel l k).length = k)
    (hsub : ∀ l k x, x ∈ sel l k → x ∈ l) :
    (diagFirstPass SAMPLE_QUESTIONS sel).1.length = 12
    ∧ ∀ x ∈ (diagFirstPass SAMPLE_QUESTIONS sel).1, x < 12 := by
  have e1 : subjectIndices SAMPLE_QUESTIONS "quantitative" = [0, 1, 2] := by decide
  have e2 : subjectIndices SAMPLE_QUESTIONS "reasoning" = [3, 4, 5] := by decide
  have e3 : subjectIndices SAMPLE_QUESTIONS "english" = [6, 7, 8] := by decide
  have e4 : subjectIndices SAMPLE_QUESTIONS "general_knowledge" = [9, 10, 11] := by decide
  have hfold : diagFirstPass SAMPLE_QUESTIONS sel
      = diagStep SAMPLE_QUESTIONS sel
          (diagStep SAMPLE_QUESTIONS sel
            (diagStep SAMPLE_QUESTIONS sel
              (diagStep SAMPLE_QUESTIONS sel ([], []) "quantitative")
              "reasoning") "english") "general_knowledge" := rfl
  have s1 := diagStep_spec sel hlen hsub ([], []) "quantitative" [0, 1, 2] e1
    (by intro i hi; simp)
  have m1 : ∀ x ∈ (diagStep SAMPLE_QUESTIONS sel ([], []) "quantitative").2,
      x ∈ ([0, 1, 2] : List Nat) := by
    intro x hx
    rcases s1.2.2 x hx with h | h
    · simp at h
    · exact h
  have d2 : ∀ i ∈ ([3, 4, 5] : List Nat),
      i ∉ (diagStep SAMPLE_QUESTIONS sel ([], []) "quantitative").2 := by
    intro i hi hc
    have h2 := m1 i hc
    simp at hi h2
    omega
  have s2 := diagStep_spec sel hlen hsub _ "reasoning" [3, 4, 5] e2 d2
  have m2 : ∀ x ∈ (diagStep SAMPLE_QUESTIONS sel
      (diagStep SAMPLE_QUESTIONS sel ([], []) "quantitative") "reasoning").2,
      x ∈ ([0, 1, 2, 3, 4, 5] : List Nat) := by
    intro x hx
    rcases s2.2.2 x hx with h | h
    · have := m1 x h; simp at this ⊢; omega
    · simp at h ⊢; omega
  have d3 : ∀ i ∈ ([6, 7, 8] : List Nat),
      i ∉ (diagStep SAMPLE_QUESTIONS sel
        (diagStep SAMPLE_QUESTIONS sel ([], []) "quantitative") "reasoning").2 := by
    intro i hi hc
    have h2 := m2 i hc
    simp at hi h2
    omega
  have s3 := diagStep_spec sel hlen hsub _ "english" [6, 7, 8] e3 d3
  have m3 : ∀ x ∈ (diagStep SAMPLE_QUESTIONS sel
      (diagStep SAMPLE_QUESTIONS sel
        (diagStep SAMPLE_QUESTIONS sel ([], []) "quantitative") "reasoning")
      "english").2,
      x ∈ ([0, 1, 2, 3, 4, 5, 6, 7, 8] : List Nat) := by
    intro x hx
    rcases s3.2.2 x hx with h | h
    · have := m2 x h; simp at this ⊢; omega
    · simp at h ⊢; omega
  have d4 : ∀ i ∈ ([9, 10, 11] : List Nat),
      i ∉ (diagStep SAMPLE_QUESTIONS sel
        (diagStep SAMPLE_QUESTIONS sel
          (diagStep SAMPLE_QUESTIONS sel ([], []) "quantitative") "reasoning")
        "english").2 := by
    intro i hi hc
    have h2 := m3 i hc
    simp at hi h2
    omega
  have s4 := diagStep_spec sel hlen hsub _ "general_knowledge" [9, 10, 11] e4 d4
  constructor
  · rw [hfold, s4.1, s3.1, s2.1, s1.1]
    rfl
  · rw [hfold]
    intro x hx
    rcases s4.2.1 x hx with h | h
    · rcases s3.2.1 x h with h | h
      · rcases s2.2.1 x h with h | h
        · rcases s1.2.1 x h with h | h
          · simp at h
          · simp at h; omega
        · simp at h; omega
      · simp at h; omega
    · simp at h; omega

/-- The top-up loop does nothing when at least 10 questions were already
collected. -/
theorem diagTopUp_of_ge (catalog : List SampleQ) (pick : List Nat → Nat)
    (qs used : List Nat) (h : ¬qs.length < 10) :
    diagTopUp catalog pick qs used = (qs, used) := by
  unfold diagTopUp
  simp [h]

/-- C4 evaluated on the shipped catalog: every run of
`start_diagnostic_test` returns `total_questions = 12` - more than the 10
the docstring and the spec promise.  The first pass takes 3 questions from
each of the 4 subjects and the code never truncates to 10 (the top-up loop
only runs when fewer than 10 were collected). -/
theorem start_diagnostic_returns_twelve (db : DB) (user_id : String)
    (sel : List Nat → Nat → List Nat) (pick : List Nat → Nat)
    (shuffle : List Nat → List Nat) (aid : String) (qids : Nat → String)
    (now : Nat)
    (hlen : ∀ l k, k ≤ l.length → (sel l k).length = k)
    (hsub : ∀ l k x, x ∈ sel l k → x ∈ l)
    (hshuffle : ∀ l, (shuffle l).Perm l) :
    (start_diagnostic_test db user_id sel pick shuffle aid qids
        now).1.total_questions = 12
    ∧ ¬(start_diagnostic_test db user_id sel pick shuffle aid qids
        now).1.total_questions ≤ 10 := by
  have hfp := diagFirstPass_sample sel hlen hsub
  have htop := diagTopUp_of_ge SAMPLE_QUESTIONS pick
    (diagFirstPass SAMPLE_QUESTIONS sel).1
    (diagFirstPass SAMPLE_QUESTIONS sel).2 (by rw [hfp.1]; omega)
  have hsel : (diagSelect SAMPLE_QUESTIONS sel pick shuffle).length = 12 := by
    show (shuffle (diagTopUp SAMPLE_QUESTIONS pick
      (diagFirstPass SAMPLE_QUESTIONS sel).1
      (diagFirstPass SAMPLE_QUESTIONS sel).2).1).length = 12
    rw [htop, (hshuffle _).length_eq]
    exact hfp.1
  have : (start_diagnostic_test db user_id sel pick shuffle aid qids
      now).1.total_questions
      = (diagSelect SAMPLE_QUESTIONS sel pick shuffle).length := by
    unfold start_diagnostic_test
    simp [List.length_map]
  rw [this, hsel]
  omega

/-- Witness for C4: the take-based sampler, head picker and identity
shuffle satisfy the random-library contracts, and the count is 12. -/
theorem start_diagnostic_returns_twelve_witness :
    (start_diagnostic_test ⟨[], [], [], []⟩ "u1" (fun l k => l.take k)
        (fun l => l.headI) (fun l => l) "a1" (fun _ => "q") 0).1.total_questions
      = 12 :=
  (start_diagnostic_returns_twelve ⟨[], [], [], []⟩ "u1"
    (fun l k => l.take k) (fun l => l.headI) (fun l => l) "a1" (fun _ => "q") 0
    (fun l k hk => by simpa [List.length_take] using hk)
    (fun l k x hx => List.take_subset k l hx)
    (fun l => List.Perm.refl l)).1


/-! ## C6: adaptive practice batch size and exam tagging -/

/-- The head of a non-empty list is a member (random.choice model). -/
theorem headI_mem {α : Type} [Inhabited α] (l : List α) (h : l ≠ []) :
    l.headI ∈ l := by
  cases l with
  | nil => exact absurd rfl h
  | cons a t => exact List.mem_cons_self a t

/-- A `Question` the try-branch builds keeps the payload's answer data and
is tagged with the caller's target exam. -/
theorem tryBuild_fields (target_exam subject difficulty : String)
    (qd : QData) (qid : String) (q : Question)
    (h : tryBuild target_exam subject difficulty qd qid = some q) :
    q.exam_type = target_exam ∧ qd.correct_answer = some q.correct_answer
    ∧ qd.options_en = some q.options_en
    ∧ qd.options_hi = some q.options_hi := by
  unfold tryBuild at h
  split at h
  case _ te th oe oh ca ee eh heq1 heq2 heq3 heq4 heq5 heq6 heq7 =>
    split at h
    · cases h
      exact ⟨rfl, heq5, heq3, heq4⟩
    · exact absurd h (by simp)
  case _ => exact absurd h (by simp)

/-- One generation iteration returns a question tagged with the learner's
target exam, except in the mock-fallback branch, where it keeps the mock
entry's own exam tag and prompt. -/
theorem adaptiveIter_exam (user : User) (used : List String) (c : IterChoice)
    (hmockc : ∀ l, l ≠ [] → c.pickMock l ∈ l) :
    (adaptiveIter user used c).1.exam_type = user.target_exam
    ∨ ∃ m ∈ MOCK_ADAPTIVE_QUESTIONS,
        (adaptiveIter user used c).1.exam_type = m.exam_type
        ∧ (adaptiveIter user used c).1.question_text_en = m.question_text_en := by
  unfold adaptiveIter
  dsimp only
  split
  · rename_i q heq
    exact Or.inl (tryBuild_fields _ _ _ _ _ _ heq).1
  · rename_i heq
    right
    by_cases hempty : (MOCK_ADAPTIVE_QUESTIONS.filter
        (fun q => !(used.contains q.question_text_en))).isEmpty = true
    · refine ⟨c.pickMock MOCK_ADAPTIVE_QUESTIONS, hmockc _ (by decide), ?_⟩
      rw [if_pos hempty]
      exact ⟨rfl, rfl⟩
    · have hne : MOCK_ADAPTIVE_QUESTIONS.filter
          (fun q => !(used.contains q.question_text_en)) ≠ [] := by
        intro hnil
        rw [hnil] at hempty
        exact hempty rfl
      refine ⟨c.pickMock (MOCK_ADAPTIVE_QUESTIONS.filter
          (fun q => !(used.contains q.question_text_en))),
        List.mem_of_mem_filter (hmockc _ hne), ?_⟩
      rw [if_neg hempty]
      exact ⟨rfl, rfl⟩

/-- The generation loop appends one question per iteration, each satisfying
the per-iteration tagging disjunction. -/
theorem adaptiveLoop_exam (user : User) (cs : List IterChoice)
    (hmock : ∀ c ∈ cs, ∀ l, l ≠ [] → c.pickMock l ∈ l) :
    ∀ qs used, (adaptiveLoop user cs qs used).1.length = qs.length + cs.length
    ∧ ∀ q ∈ (adaptiveLoop user cs qs used).1, q ∈ qs
        ∨ q.exam_type = user.target_exam
        ∨ ∃ m ∈ MOCK_ADAPTIVE_QUESTIONS,
            q.exam_type = m.exam_type
            ∧ q.question_text_en = m.question_text_en := by
  induction cs with
  | nil =>
    intro qs used
    exact ⟨by simp [adaptiveLoop], fun q hq => Or.inl (by simpa [adaptiveLoop] using hq)⟩
  | cons c rest ih =>
    intro qs used
    have hmc : ∀ l, l ≠ [] → c.pickMock l ∈ l :=
      hmock c (List.mem_cons_self c rest)
    have hrest : ∀ c2 ∈ rest, ∀ l, l ≠ [] → c2.pickMock l ∈ l :=
      fun c2 hc2 => hmock c2 (List.mem_cons_of_mem c hc2)
    have hstep := adaptiveIter_exam user used c hmc
    obtain ⟨ihlen, ihmem⟩ := ih hrest
      (qs ++ [(adaptiveIter user used c).1]) (adaptiveIter user used c).2
    constructor
    · simp only [adaptiveLoop]
      rw [ihlen]
      simp only [List.length_append, List.length_cons, List.length_nil]
      omega
    · intro q hq
      simp only [adaptiveLoop] at hq
      rcases ihmem q hq with hin | htag
      · rcases List.mem_append.mp hin with h1 | h1
        · exact Or.inl h1
        · have hq1 : q = (adaptiveIter user used c).1 := by simpa using h1
          rw [hq1]
          exact Or.inr hstep
      · exact Or.inr htag

/-- C6 amended: for every existing learner and requested count - the
generator outcomes and random draws arbitrary, mock picks members of their
list as `random.choice` guarantees - the endpoint returns exactly `count`
questions with no exception; each question is tagged with the learner's
target exam except those produced by the outer mock-catalog fallback,
which keep the mock entry's own exam tag and prompt text. -/
theorem get_adaptive_practice_count (db : DB) (user_id : String)
    (count : Nat) (aid : String) (now : Nat) (choices : Nat → IterChoice)
    (user : User)
    (huser : db.users.find? (fun u => u.id == user_id) = some user)
    (hmock : ∀ i l, l ≠ [] → (choices i).pickMock l ∈ l) :
    ∃ qs : List Question,
      (get_adaptive_practice db user_id count aid now choices).1
        = .ok (qs, aid)
      ∧ qs.length = count
      ∧ ∀ q ∈ qs, q.exam_type = user.target_exam
          ∨ ∃ m ∈ MOCK_ADAPTIVE_QUESTIONS,
              q.exam_type = m.exam_type
              ∧ q.question_text_en = m.question_text_en := by
  have hmockcs : ∀ c ∈ (List.range count).map choices,
      ∀ l, l ≠ [] → c.pickMock l ∈ l := by
    intro c hc
    obtain ⟨i, -, rfl⟩ := List.mem_map.mp hc
    exact hmock i
  obtain ⟨hlen, hmem⟩ :=
    adaptiveLoop_exam user ((List.range count).map choices) hmockcs [] []
  refine ⟨(adaptiveLoop user ((List.range count).map choices) [] []).1, ?_, ?_, ?_⟩
  · unfold get_adaptive_practice
    rw [huser]
  · rw [hlen]; simp
  · intro q hq
    rcases hmem q hq with h | h
    · simp at h
    · exact h

/-- Fixture: a single SSC learner with no tier data, empty collections. -/
def aUserA : User :=
  { id := "u1", name := "Asha", phone := "9999900000", target_exam := "SSC",
    preferred_language := "english", skill_levels := [], created_at := 0 }

def aDBA : DB := ⟨[aUserA], [], [], []⟩

/-- An unusable generator payload: valid JSON, none of the required keys. -/
def emptyPayload : QData := ⟨none, none, none, none, none, none, none⟩

/-- The iteration draws of the C6 counterexample run: the payload cannot be
built, and `random.choice` happens to pick the last mock entry (a Railway
question). -/
def railChoice : IterChoice :=
  { pickSubject := fun l => l.headI, gen := .parsed emptyPayload,
    pickSample := fun l => l.headI, pickMock := fun l => l.getLastI,
    qid1 := "g1", qid2 := "g2" }

def railQuestion : Question := buildFromMock MOCK_ADAPTIVE_QUESTIONS.getLastI "g2"

/-- C6 counterexample: an SSC learner's adaptive-practice run whose
generator payload cannot be built returns a question tagged "Railway", not
the learner's target exam "SSC" - the claim's tagging clause is false as
stated. -/
theorem adaptive_exam_tag_counterexample :
    (get_adaptive_practice aDBA "u1" 1 "aa1" 0 (fun _ => railChoice)).1
      = .ok ([railQuestion], "aa1")
    ∧ railQuestion.exam_type = "Railway"
    ∧ aUserA.target_exam = "SSC"
    ∧ railQuestion.exam_type ≠ aUserA.target_exam := by
  refine ⟨rfl, rfl, rfl, by decide⟩

/-- The C6-witness iteration draws: the generator fails at the JSON stage,
so the inner fallback picks a sample question and tags it with the
learner's target exam. -/
def jsonFailChoice : IterChoice :=
  { pickSubject := fun l => l.headI, gen := .jsonFail,
    pickSample := fun l => l.headI, pickMock := fun l => l.headI,
    qid1 := "g1", qid2 := "g2" }

def sampleFallbackQ : Question :=
  { id := "g1", subject := "quantitative", difficulty := "beginner",
    question_text_en := SAMPLE_QUESTIONS.headI.question_text_en,
    question_text_hi := SAMPLE_QUESTIONS.headI.question_text_hi,
    options_en := SAMPLE_QUESTIONS.headI.options_en,
    options_hi := SAMPLE_QUESTIONS.headI.options_hi,
    correct_answer := SAMPLE_QUESTIONS.headI.correct_answer,
    explanation_en := SAMPLE_QUESTIONS.headI.explanation_en,
    explanation_hi := SAMPLE_QUESTIONS.headI.explanation_hi,
    exam_type := "SSC" }

/-- Witness for C6 (amended): a learner with no tier data and an
always-failing generator still receives exactly 2 questions, both from the
sample fallback and tagged "SSC". -/
theorem get_adaptive_practice_count_witness :
    (get_adaptive_practice aDBA "u1" 2 "aa1" 0 (fun _ => jsonFailChoice)).1
      = .ok ([sampleFallbackQ, sampleFallbackQ], "aa1")
    ∧ sampleFallbackQ.exam_type = aUserA.target_exam := by
  obtain ⟨qs, -, -, -⟩ :=
    get_adaptive_practice_count aDBA "u1" 2 "aa1" 0 (fun _ => jsonFailChoice)
      aUserA rfl (fun i l hl => headI_mem l hl)
  exact ⟨rfl, rfl⟩


/-! ## C7: the correct-answer index invariant -/

/-- The invariant of the spec on a catalog entry: the correct-answer index
is 0..3 and both option lists have 4 entries. -/
def sampleOK (s : SampleQ) : Prop :=
  0 ≤ s.correct_answer ∧ s.correct_answer < 4
  ∧ s.options_en.length = 4 ∧ s.options_hi.length = 4

/-- The invariant on a stored `Question`. -/
def questionIndexOK (q : Question) : Prop :=
  0 ≤ q.correct_answer ∧ q.correct_answer < 4
  ∧ q.options_en.length = 4 ∧ q.options_hi.length = 4

/-- A generator payload whose answer data, when present, is within range. -/
def payloadOK (p : QData) : Prop :=
  ∀ ca oe oh, p.correct_answer = some ca → p.options_en = some oe →
    p.options_hi = some oh →
    0 ≤ ca ∧ ca < 4 ∧ oe.length = 4 ∧ oh.length = 4

theorem sample_catalog_ok : ∀ q ∈ SAMPLE_QUESTIONS, sampleOK q := by
  unfold sampleOK
  decide

theorem mock_catalog_ok : ∀ q ∈ MOCK_ADAPTIVE_QUESTIONS, sampleOK q := by
  unfold sampleOK
  decide

theorem getI_mem {α : Type} [Inhabited α] :
    ∀ (l : List α) (i : Nat), i < l.length → l.getI i ∈ l := by
  intro l
  induction l with
  | nil => intro i h; simp at h
  | cons a t ih =>
    intro i h
    cases i with
    | zero => exact List.mem_cons_self a t
    | succ n => exact List.mem_cons_of_mem a (ih n (by simpa using h))

theorem mem_zipWith_decomp {α β γ : Type} (f : α → β → γ) :
    ∀ (as : List α) (bs : List β) (x : γ), x ∈ List.zipWith f as bs →
      ∃ a b, a ∈ as ∧ b ∈ bs ∧ x = f a b := by
  intro as
  induction as with
  | nil => intro bs x hx; simp at hx
  | cons a ta ih =>
    intro bs x hx
    cases bs with
    | nil => simp at hx
    | cons b tb =>
      simp only [List.zipWith_cons_cons, List.mem_cons] at hx
      rcases hx with rfl | hx
      · exact ⟨a, b, List.mem_cons_self a ta, List.mem_cons_self b tb, rfl⟩
      · obtain ⟨a2, b2, ha2, hb2, rfl⟩ := ih tb x hx
        exact ⟨a2, b2, List.mem_cons_of_mem a ha2,
          List.mem_cons_of_mem b hb2, rfl⟩

/-- The `question_data` dict of one iteration - the parsed payload or a
sample-catalog entry - has in-range answer data whenever every parsed
payload does (catalog entries always do). -/
theorem iter_qdata_ok (subject difficulty : String) (c : IterChoice)
    (hsamplec : ∀ l, l ≠ [] → c.pickSample l ∈ l)
    (hgenc : ∀ p, c.gen = .parsed p → payloadOK p) :
    payloadOK (match c.gen with
      | .parsed payload => payload
      | .jsonFail =>
        (if (SAMPLE_QUESTIONS.filter
            (fun q => q.subject == subject && q.difficulty == difficulty)).isEmpty
          then SAMPLE_QUESTIONS.headI
          else c.pickSample (SAMPLE_QUESTIONS.filter
            (fun q => q.subject == subject && q.difficulty == difficulty))).toQData) := by
  cases hg : c.gen with
  | parsed p => exact hgenc p hg
  | jsonFail =>
    dsimp only
    have hmem : (if (SAMPLE_QUESTIONS.filter
        (fun q => q.subject == subject && q.difficulty == difficulty)).isEmpty
        then SAMPLE_QUESTIONS.headI
        else c.pickSample (SAMPLE_QUESTIONS.filter
          (fun q => q.subject == subject && q.difficulty == difficulty)))
        ∈ SAMPLE_QUESTIONS := by
      split
      · exact headI_mem _ (by decide)
      · rename_i hfalse
        have hne : SAMPLE_QUESTIONS.filter
            (fun q => q.subject == subject && q.difficulty == difficulty) ≠ [] := by
          intro hnil
          rw [hnil] at hfalse
          exact hfalse rfl
        exact List.mem_of_mem_filter (hsamplec _ hne)
    have hok := sample_catalog_ok _ hmem
    intro ca oe oh hca hoe hoh
    simp only [SampleQ.toQData, Option.some.injEq] at hca hoe hoh
    rw [← hca, ← hoe, ← hoh]
    exact hok

/-- Every question one iteration produces satisfies the index invariant,
as long as parsed payloads do (fallback questions always do). -/
theorem adaptiveIter_index (user : User) (used : List String) (c : IterChoice)
    (hmockc : ∀ l, l ≠ [] → c.pickMock l ∈ l)
    (hsamplec : ∀ l, l ≠ [] → c.pickSample l ∈ l)
    (hgenc : ∀ p, c.gen = .parsed p → payloadOK p) :
    questionIndexOK (adaptiveIter user used c).1 := by
  unfold adaptiveIter
  dsimp only
  split
  · rename_i q heq
    obtain ⟨-, hca, hoe, hoh⟩ := tryBuild_fields _ _ _ _ _ _ heq
    exact iter_qdata_ok _ _ c hsamplec hgenc
      q.correct_answer q.options_en q.options_hi hca hoe hoh
  · rename_i heq
    by_cases hempty : (MOCK_ADAPTIVE_QUESTIONS.filter
        (fun q => !(used.contains q.question_text_en))).isEmpty = true
    · rw [if_pos hempty]
      exact mock_catalog_ok _ (hmockc MOCK_ADAPTIVE_QUESTIONS (by decide))
    · rw [if_neg hempty]
      have hne : MOCK_ADAPTIVE_QUESTIONS.filter
          (fun q => !(used.contains q.question_text_en)) ≠ [] := by
        intro hnil
        rw [hnil] at hempty
        exact hempty rfl
      exact mock_catalog_ok _ (List.mem_of_mem_filter (hmockc _ hne))

/-- The invariant holds of every question the generation loop accumulates
over an invariant-respecting start. -/
theorem adaptiveLoop_index (user : User) (cs : List IterChoice)
    (h : ∀ c ∈ cs, (∀ l, l ≠ [] → c.pickMock l ∈ l)
      ∧ (∀ l, l ≠ [] → c.pickSample l ∈ l)
      ∧ (∀ p, c.gen = .parsed p → payloadOK p)) :
    ∀ qs used, (∀ q ∈ qs, questionIndexOK q) →
      ∀ q ∈ (adaptiveLoop user cs qs used).1, questionIndexOK q := by
  induction cs with
  | nil =>
    intro qs used hqs q hq
    exact hqs q (by simpa [adaptiveLoop] using hq)
  | cons c rest ih =>
    intro qs used hqs q hq
    simp only [adaptiveLoop] at hq
    refine ih (fun c2 hc2 => h c2 (List.mem_cons_of_mem c hc2)) _ _ ?_ q hq
    intro q2 hq2
    rcases List.mem_append.mp hq2 with h1 | h1
    · exact hqs q2 h1
    · have hq2e : q2 = (adaptiveIter user used c).1 := by simpa using h1
      rw [hq2e]
      obtain ⟨hm, hs, hgn⟩ := h c (List.mem_cons_self c rest)
      exact adaptiveIter_index user used c hm hs hgn

/-- C7 amended: the index invariant holds of both static catalogs, of every
question the diagnostic stores (they are copies of catalog entries), and
of every question adaptive practice returns provided each parsed generator
payload carries an in-range index with 4-option lists - the code stores
whatever index the payload carries, without validation (see the
counterexample). -/
theorem question_index_invariant (db : DB) (user_id : String)
    (sel : List Nat → Nat → List Nat) (pick : List Nat → Nat)
    (shuffle : List Nat → List Nat) (aid : String) (qids : Nat → String)
    (now : Nat) (db2 : DB) (user_id2 : String) (count : Nat) (aid2 : String)
    (now2 : Nat) (choices : Nat → IterChoice) (user2 : User)
    (hlen : ∀ l k, k ≤ l.length → (sel l k).length = k)
    (hsub : ∀ l k x, x ∈ sel l k → x ∈ l)
    (hshuffle : ∀ l, (shuffle l).Perm l)
    (huser2 : db2.users.find? (fun u => u.id == user_id2) = some user2)
    (hmock : ∀ i l, l ≠ [] → (choices i).pickMock l ∈ l)
    (hsample : ∀ i l, l ≠ [] → (choices i).pickSample l ∈ l)
    (hgen : ∀ i p, (choices i).gen = .parsed p → payloadOK p) :
    (∀ q ∈ SAMPLE_QUESTIONS ++ MOCK_ADAPTIVE_QUESTIONS, sampleOK q)
    ∧ (∀ q ∈ ((start_diagnostic_test db user_id sel pick shuffle aid qids
        now).2).questions, q ∈ db.questions ∨ questionIndexOK q)
    ∧ (∃ qs, (get_adaptive_practice db2 user_id2 count aid2 now2 choices).1
        = .ok (qs, aid2) ∧ ∀ q ∈ qs, questionIndexOK q) := by
  refine ⟨?_, ?_, ?_⟩
  · intro q hq
    rcases List.mem_append.mp hq with h | h
    · exact sample_catalog_ok q h
    · exact mock_catalog_ok q h
  · intro q hq
    have hq2 : q ∈ db.questions
        ∨ q ∈ List.zipWith mkDiagQuestion
            ((diagSelect SAMPLE_QUESTIONS sel pick shuffle).map
              (fun i => SAMPLE_QUESTIONS.getI i))
            ((List.range ((diagSelect SAMPLE_QUESTIONS sel pick
              shuffle).map (fun i => SAMPLE_QUESTIONS.getI i)).length).map qids) := by
      have : ((start_diagnostic_test db user_id sel pick shuffle aid qids
          now).2).questions = db.questions ++ List.zipWith mkDiagQuestion
            ((diagSelect SAMPLE_QUESTIONS sel pick shuffle).map
              (fun i => SAMPLE_QUESTIONS.getI i))
            ((List.range ((diagSelect SAMPLE_QUESTIONS sel pick
              shuffle).map (fun i => SAMPLE_QUESTIONS.getI i)).length).map qids) := rfl
      rw [this] at hq
      exact List.mem_append.mp hq
    rcases hq2 with h | h
    · exact Or.inl h
    · right
      obtain ⟨s, qid, hs, -, rfl⟩ := mem_zipWith_decomp mkDiagQuestion _ _ q h
      obtain ⟨i, hi, rfl⟩ := List.mem_map.mp hs
      have hi12 : i < 12 := by
        have hfp := diagFirstPass_sample sel hlen hsub
        have htop := diagTopUp_of_ge SAMPLE_QUESTIONS pick
          (diagFirstPass SAMPLE_QUESTIONS sel).1
          (diagFirstPass SAMPLE_QUESTIONS sel).2 (by rw [hfp.1]; omega)
        have himem : i ∈ (diagFirstPass SAMPLE_QUESTIONS sel).1 := by
          have : i ∈ shuffle (diagTopUp SAMPLE_QUESTIONS pick
              (diagFirstPass SAMPLE_QUESTIONS sel).1
              (diagFirstPass SAMPLE_QUESTIONS sel).2).1 := hi
          rw [htop] at this
          exact ((hshuffle _).mem_iff).mp this
        exact hfp.2 i himem
      have hsm : SAMPLE_QUESTIONS.getI i ∈ SAMPLE_QUESTIONS :=
        getI_mem SAMPLE_QUESTIONS i (by rw [(by decide : SAMPLE_QUESTIONS.length = 12)]; omega)
      exact sample_catalog_ok _ hsm
  · have hall : ∀ c ∈ (List.range count).map choices,
        (∀ l, l ≠ [] → c.pickMock l ∈ l)
        ∧ (∀ l, l ≠ [] → c.pickSample l ∈ l)
        ∧ (∀ p, c.gen = .parsed p → payloadOK p) := by
      intro c hc
      obtain ⟨i, -, rfl⟩ := List.mem_map.mp hc
      exact ⟨hmock i, hsample i, hgen i⟩
    refine ⟨(adaptiveLoop user2 ((List.range count).map choices) [] []).1,
      ?_, ?_⟩
    · unfold get_adaptive_practice
      rw [huser2]
    · exact adaptiveLoop_index user2 ((List.range count).map choices) hall
        [] [] (by simp)

/-- A syntactically valid generator payload carrying the out-of-range
correct-answer index 7 with 4-option lists. -/
def badIndexPayload : QData :=
  { question_text_en := some "badly indexed question",
    question_text_hi := some "badly indexed question hi",
    options_en := some ["A", "B", "C", "D"],
    options_hi := some ["E", "F", "G", "H"],
    correct_answer := some 7,
    explanation_en := some "none", explanation_hi := some "none hi" }

def badIndexChoice : IterChoice :=
  { pickSubject := fun l => l.headI, gen := .parsed badIndexPayload,
    pickSample := fun l => l.headI, pickMock := fun l => l.headI,
    qid1 := "g1", qid2 := "g2" }

/-- The question the run stores and returns for that payload. -/
def badIndexQuestion : Question :=
  { id := "g1", subject := "quantitative", difficulty := "beginner",
    question_text_en := "badly indexed question",
    question_text_hi := "badly indexed question hi",
    options_en := ["A", "B", "C", "D"], options_hi := ["E", "F", "G", "H"],
    correct_answer := 7, explanation_en := "none",
    explanation_hi := "none hi", exam_type := "SSC" }

/-- C7 counterexample: the adaptive flow persists and returns a question
whose correct_answer is 7 against 4-element option lists - the payload's
index is stored unvalidated, so the invariant is false as stated. -/
theorem adaptive_bad_index_counterexample :
    (get_adaptive_practice aDBA "u1" 1 "aa1" 0 (fun _ => badIndexChoice)).1
      = .ok ([badIndexQuestion], "aa1")
    ∧ badIndexQuestion.options_en.length = 4
    ∧ badIndexQuestion.options_hi.length = 4
    ∧ ¬(badIndexQuestion.correct_answer < 4) := by
  refine ⟨rfl, rfl, rfl, by decide⟩

/-- Witness for C7 (amended): concrete samplers obeying the random-library
contracts and an always-failing generator; the first adaptive question of
the run satisfies the invariant, as does the whole sample catalog. -/
theorem question_index_invariant_witness :
    (∀ q ∈ SAMPLE_QUESTIONS ++ MOCK_ADAPTIVE_QUESTIONS, sampleOK q)
    ∧ questionIndexOK sampleFallbackQ := by
  obtain ⟨hcat, -, hadapt⟩ := question_index_invariant
    ⟨[], [], [], []⟩ "u0" (fun l k => l.take k) (fun l => l.headI)
    (fun l => l) "a1" (fun _ => "q") 0
    aDBA "u1" 1 "aa1" 0 (fun _ => jsonFailChoice) aUserA
    (fun l k hk => by simpa [List.length_take] using hk)
    (fun l k x hx => List.take_subset k l hx)
    (fun l => List.Perm.refl l)
    rfl
    (fun i l hl => headI_mem l hl)
    (fun i l hl => headI_mem l hl)
    (fun i p hp => by cases hp)
  obtain ⟨qs, hqs, hok⟩ := hadapt
  have hqs2 : qs = [sampleFallbackQ] := by
    have h0 : (get_adaptive_practice aDBA "u1" 1 "aa1" 0
        (fun _ => jsonFailChoice)).1 = .ok ([sampleFallbackQ], "aa1") := rfl
    rw [h0] at hqs
    exact (congrArg Prod.fst (Except.ok.inj hqs)).symm
  refine ⟨hcat, ?_⟩
  have := hok sampleFallbackQ (by rw [hqs2]; exact List.mem_cons_self _ _)
  exact this

end Pathshala
